import Mathlib

/-!
Verification of the Gametracker JSON-file stores (`src/store.py` `GameStore`,
`src/book_store.py` `BookStore`) against the natural-language specification.

The stores are shallowly embedded: Python dicts keyed by item id become
association lists `List (Nat × Item)` in insertion order; `datetime.now()`
becomes an explicit `now : Nat` parameter (timestamp formatting is abstracted);
raised exceptions become `Except` results.  Because the Python code mutates
`Game` / `Book` objects in place inside the dict and an exception raised
mid-operation leaves earlier mutations visible, every mutating operation
returns the post-call store *together with* the `Except` result, also on the
error path.
-/

set_option maxHeartbeats 1000000

namespace Gametracker

/-- `GameStatus` enum from `models.py`. -/
inductive GameStatus where
  | active | paused | casual | planned | finished | dropped
deriving DecidableEq, Repr

/-- `BookStatus` enum from `models.py`. -/
inductive BookStatus where
  | reading | paused | reference | planned | finished | dropped
deriving DecidableEq, Repr

/-- `Game` model from `models.py` (timestamps abstracted to `Nat`). -/
structure Game where
  id : Nat
  user_id : Nat
  name : String
  status : GameStatus
  notes : String
  rating : Option Nat
  reason : String
  created_at : Nat
  ended_at : Option Nat
deriving DecidableEq, Repr

/-- `Book` model from `models.py`. -/
structure Book where
  id : Nat
  user_id : Nat
  title : String
  author : String
  status : BookStatus
  notes : String
  rating : Option Nat
  reason : String
  progress : String
  created_at : Nat
  ended_at : Option Nat
deriving DecidableEq, Repr

/-- `GameCreate` request model. -/
structure GameCreate where
  name : String
  notes : String := ""
  status : GameStatus := GameStatus.active
  rating : Option Nat := none
  reason : String := ""
deriving DecidableEq, Repr

/-- `GameUpdate` partial-update model; `none` = field not provided. -/
structure GameUpdate where
  name : Option String := none
  status : Option GameStatus := none
  notes : Option String := none
  rating : Option Nat := none
  reason : Option String := none
deriving DecidableEq, Repr

/-- `BookCreate` request model. -/
structure BookCreate where
  title : String
  author : String := ""
  notes : String := ""
  status : BookStatus := BookStatus.reading
  rating : Option Nat := none
  reason : String := ""
  progress : Option String := none
deriving DecidableEq, Repr

/-- `BookUpdate` partial-update model; `none` = field not provided. -/
structure BookUpdate where
  title : Option String := none
  author : Option String := none
  status : Option BookStatus := none
  notes : Option String := none
  rating : Option Nat := none
  reason : Option String := none
  progress : Option String := none
deriving DecidableEq, Repr

/-- Error taxonomy (`exceptions.py` and the book-store exceptions, plus the
`ValueError` raised by `BookStore.update_limit` and the pydantic
`ValidationError` raised by `Game(...)` / `Book(...)` construction). -/
inductive StoreError where
  | notFound (id : Nat)
  | limitExceeded (limit : Nat)
  | duplicateName (name : String)
  | invalidLimit
  | validationError
deriving DecidableEq, Repr

/-- The pydantic field constraints of the `Game` model, validated whenever a
`Game(...)` is constructed: `name` has `min_length=1, max_length=100`,
`rating` is at most 10. -/
def GameValid (g : Game) : Prop :=
  1 ≤ g.name.length ∧ g.name.length ≤ 100 ∧ g.rating.getD 0 ≤ 10

instance (g : Game) : Decidable (GameValid g) := by
  unfold GameValid; infer_instance

/-- The pydantic field constraints of the `Book` model, validated whenever a
`Book(...)` is constructed: `title` has `min_length=1, max_length=200`,
`author` has `max_length=100`, `rating` is at most 10. -/
def BookValid (b : Book) : Prop :=
  1 ≤ b.title.length ∧ b.title.length ≤ 200 ∧ b.author.length ≤ 100 ∧
    b.rating.getD 0 ≤ 10

instance (b : Book) : Decidable (BookValid b) := by
  unfold BookValid; infer_instance

instance {ε α : Type} [DecidableEq ε] [DecidableEq α] : DecidableEq (Except ε α) :=
  fun x y =>
  match x, y with
  | Except.ok a, Except.ok b =>
    if h : a = b then Decidable.isTrue (h ▸ rfl)
    else Decidable.isFalse (fun hc => h (Except.ok.inj hc))
  | Except.error a, Except.error b =>
    if h : a = b then Decidable.isTrue (h ▸ rfl)
    else Decidable.isFalse (fun hc => h (Except.error.inj hc))
  | Except.ok _, Except.error _ => Decidable.isFalse (fun hc => Except.noConfusion hc)
  | Except.error _, Except.ok _ => Decidable.isFalse (fun hc => Except.noConfusion hc)

/-- In-memory state of `GameStore`: `self._games`, `self._next_id`,
`self._limit`.  The dict is an association list in insertion order. -/
structure GameStore where
  games : List (Nat × Game)
  next_id : Nat
  limit : Nat
deriving DecidableEq, Repr

/-- In-memory state of `BookStore`. -/
structure BookStore where
  books : List (Nat × Book)
  next_id : Nat
  limit : Nat
deriving DecidableEq, Repr

/-- Python `str.strip()`: drop whitespace from both ends (kernel-reducible
embedding over the character list). -/
def pyStrip (s : String) : String :=
  ⟨((s.data.dropWhile Char.isWhitespace).reverse.dropWhile Char.isWhitespace).reverse⟩

/-- Python `str.lower()`: per-character lowercasing. -/
def pyLower (s : String) : String :=
  ⟨s.data.map Char.toLower⟩

/-- Dict lookup `self._games[game_id]` / `game_id in self._games`. -/
def findItem {α : Type} : List (Nat × α) → Nat → Option α
  | [], _ => none
  | p :: ps, k => if p.1 = k then some p.2 else findItem ps k

/-- In-place mutation of the object stored at key `k` (Python object identity:
assigning to an attribute of `self._games[k]` updates the dict's value). -/
def setItem {α : Type} (l : List (Nat × α)) (k : Nat) (v : α) : List (Nat × α) :=
  l.map (fun p => if p.1 = k then (p.1, v) else p)

/-- `del self._games[game_id]`. -/
def delItem {α : Type} (l : List (Nat × α)) (k : Nat) : List (Nat × α) :=
  l.filter (fun p => decide (p.1 ≠ k))

/-- `[g for g in self._games.values() if g.status == GameStatus.ACTIVE]`,
then `len`. -/
def activeLen (s : GameStore) : Nat :=
  (s.games.filter (fun p => decide (p.2.status = GameStatus.active))).length

/-- `GameStore._is_duplicate_active_name`. -/
def isDuplicateActiveName (games : List (Nat × Game)) (name : String)
    (excludeId : Option Nat) : Bool :=
  let activeGames := games.filter (fun p => decide (p.2.status = GameStatus.active))
  let activeGames : List (Nat × Game) := match excludeId with
    | some i => activeGames.filter (fun p => decide (p.2.id ≠ i))
    | none => activeGames
  activeGames.any (fun p => decide (pyLower p.2.name = pyLower name))

/-- `GameStore._would_create_duplicate_active_name`. -/
def wouldCreateDuplicateActiveName (games : List (Nat × Game)) (gameId : Nat)
    (name : String) (newStatus : GameStatus) : Bool :=
  if newStatus = GameStatus.active then
    isDuplicateActiveName games name (some gameId)
  else
    false

/-- The game object built by `add_game` (name trimmed, `created_at = now`,
`ended_at = now` exactly when created in a terminal status). -/
def mkNewGame (now : Nat) (gd : GameCreate) (s : GameStore) : Game :=
  { id := s.next_id, user_id := 1, name := pyStrip gd.name, status := gd.status,
    notes := gd.notes, rating := gd.rating, reason := gd.reason,
    created_at := now,
    ended_at := if gd.status = GameStatus.finished ∨ gd.status = GameStatus.dropped
                then some now else none }

/-- The construction-and-insertion step of `add_game`: `Game(...)` first
re-validates the pydantic field constraints — a schema-valid whitespace-only
name strips to empty and fails `min_length=1`, raising a `ValidationError`
before anything is stored — then the game is stored under key `next_id` and
the counter is bumped. -/
def mkAddGame (now : Nat) (gd : GameCreate) (s : GameStore) :
    GameStore × Except StoreError Game :=
  if GameValid (mkNewGame now gd s) then
    ({ s with
        games := s.games ++ [(s.next_id, mkNewGame now gd s)],
        next_id := s.next_id + 1 },
      Except.ok (mkNewGame now gd s))
  else
    (s, Except.error StoreError.validationError)

/-- `GameStore.add_game`.  On failure the store is returned unchanged (the
exception is raised before any mutation). -/
def addGame (now : Nat) (gd : GameCreate) (s : GameStore) :
    GameStore × Except StoreError Game :=
  if gd.status = GameStatus.active then
    if activeLen s ≥ s.limit then
      (s, Except.error (StoreError.limitExceeded s.limit))
    else if isDuplicateActiveName s.games (pyStrip gd.name) none then
      (s, Except.error (StoreError.duplicateName (pyStrip gd.name)))
    else mkAddGame now gd s
  else mkAddGame now gd s

/-- The notes / rating / reason assignments of `update_game` as a pure
function. -/
def applyGameFields (u : GameUpdate) (g : Game) : Game :=
  let g := match u.notes with | some v => { g with notes := v } | none => g
  let g := match u.rating with | some v => { g with rating := some v } | none => g
  let g := match u.reason with | some v => { g with reason := v } | none => g
  g

/-- Tail of `GameStore.update_game` after the status change: the
`updates.notes / rating / reason` assignments, then `_save_data` and return. -/
def finishGameUpdate (gid : Nat) (u : GameUpdate) (s : GameStore) (game : Game) :
    GameStore × Except StoreError Game :=
  let game := applyGameFields u game
  ({ s with games := setItem s.games gid game }, Except.ok game)

/-- `GameStore._handle_status_change` fused with the remainder of
`update_game`.  `s` already reflects the name mutation; `currentStatus` is the
status read before any mutation. -/
def gameStatusChange (now gid : Nat) (u : GameUpdate) (s : GameStore)
    (game : Game) (currentStatus : GameStatus) (newStatus : GameStatus) :
    GameStore × Except StoreError Game :=
  if newStatus = GameStatus.active then
    if currentStatus ≠ GameStatus.active then
      if activeLen s ≥ s.limit then
        (s, Except.error (StoreError.limitExceeded s.limit))
      else
        let check_name := match u.name with | some n => pyStrip n | none => game.name
        if isDuplicateActiveName s.games check_name (some game.id) then
          (s, Except.error (StoreError.duplicateName check_name))
        else
          let game := { game with ended_at := none, status := newStatus }
          finishGameUpdate gid u { s with games := setItem s.games gid game } game
    else
      let game := { game with ended_at := none, status := newStatus }
      finishGameUpdate gid u { s with games := setItem s.games gid game } game
  else if newStatus = GameStatus.paused ∨ newStatus = GameStatus.casual ∨
          newStatus = GameStatus.planned then
    let game := { game with ended_at := none, status := newStatus }
    finishGameUpdate gid u { s with games := setItem s.games gid game } game
  else
    let game :=
      if currentStatus = GameStatus.active then
        { game with ended_at := some now, status := newStatus }
      else
        { game with status := newStatus }
    finishGameUpdate gid u { s with games := setItem s.games gid game } game

/-- `GameStore.update_game`.  The returned store reflects exactly the
mutations performed before a raise: the name assignment happens before the
status checks, so a failing status change keeps an already-applied name. -/
def updateGame (now gid : Nat) (u : GameUpdate) (s : GameStore) :
    GameStore × Except StoreError Game :=
  match findItem s.games gid with
  | none => (s, Except.error (StoreError.notFound gid))
  | some game0 =>
    let currentStatus := game0.status
    let afterName : (GameStore × Game) ⊕ StoreError :=
      match u.name with
      | none => Sum.inl (s, game0)
      | some n =>
        let name := pyStrip n
        if wouldCreateDuplicateActiveName s.games gid name
            (u.status.getD game0.status) then
          Sum.inr (StoreError.duplicateName name)
        else
          let game1 := { game0 with name := name }
          Sum.inl ({ s with games := setItem s.games gid game1 }, game1)
    match afterName with
    | Sum.inr e => (s, Except.error e)
    | Sum.inl (s1, game1) =>
      match u.status with
      | none => finishGameUpdate gid u s1 game1
      | some newStatus => gameStatusChange now gid u s1 game1 currentStatus newStatus

/-- `GameStore.delete_game`. -/
def deleteGame (gid : Nat) (s : GameStore) : GameStore × Except StoreError Bool :=
  if (findItem s.games gid).isSome then
    ({ s with games := delItem s.games gid }, Except.ok true)
  else
    (s, Except.error (StoreError.notFound gid))

/-- `GameStore.update_limit`: clamp to at most 5, at least 1, then store.
Never fails. -/
def updateGameLimit (newLimit : Int) (s : GameStore) : GameStore :=
  let nl : Int := if newLimit > 5 then 5 else if newLimit < 1 then 1 else newLimit
  { s with limit := nl.toNat }

/-- `len([b for b in self._books.values() if b.status == BookStatus.READING])`. -/
def readingLen (s : BookStore) : Nat :=
  (s.books.filter (fun p => decide (p.2.status = BookStatus.reading))).length

/-- A book status is terminal (`in [BookStatus.FINISHED, BookStatus.DROPPED]`). -/
def bookTerminal (st : BookStatus) : Prop :=
  st = BookStatus.finished ∨ st = BookStatus.dropped

instance (st : BookStatus) : Decidable (bookTerminal st) := by
  unfold bookTerminal; infer_instance

/-- The duplicate-title scan of `BookStore.update_book`: another book, in
READING status, whose trimmed lowercased title matches. -/
def hasReadingDup (books : List (Nat × Book)) (bid : Nat) (title : String) : Bool :=
  books.any (fun p => decide (p.2.id ≠ bid ∧ p.2.status = BookStatus.reading ∧
    pyLower (pyStrip p.2.title) = pyLower (pyStrip title)))

/-- The book object built by `add_book` (title and author trimmed,
`progress = book_data.progress or ""`; the post-construction
`if book.status in [FINISHED, DROPPED]: book.ended_at = now` is folded into
the `ended_at` field). -/
def mkNewBook (now : Nat) (bd : BookCreate) (s : BookStore) : Book :=
  { id := s.next_id, user_id := 1, title := pyStrip bd.title,
    author := pyStrip bd.author, status := bd.status, notes := bd.notes,
    rating := bd.rating, reason := bd.reason, progress := bd.progress.getD "",
    created_at := now,
    ended_at := if bd.status = BookStatus.finished ∨ bd.status = BookStatus.dropped
                then some now else none }

/-- The construction-and-insertion step of `add_book`: `Book(...)` first
re-validates the pydantic field constraints — a schema-valid whitespace-only
title strips to empty and fails `min_length=1`, raising a `ValidationError`
before anything is stored — then the book is stored under key `next_id` and
the counter is bumped. -/
def mkAddBook (now : Nat) (bd : BookCreate) (s : BookStore) :
    BookStore × Except StoreError Book :=
  if BookValid (mkNewBook now bd s) then
    ({ s with
        books := s.books ++ [(s.next_id, mkNewBook now bd s)],
        next_id := s.next_id + 1 },
      Except.ok (mkNewBook now bd s))
  else
    (s, Except.error StoreError.validationError)

/-- `BookStore.add_book`.  On failure the store is unchanged (the raise
precedes any mutation).  Note the duplicate error carries the *raw* requested
title (`DuplicateBookError(book_data.title)`). -/
def addBook (now : Nat) (bd : BookCreate) (s : BookStore) :
    BookStore × Except StoreError Book :=
  if bd.status = BookStatus.reading then
    if readingLen s ≥ s.limit then
      (s, Except.error (StoreError.limitExceeded s.limit))
    else if s.books.any (fun p => decide (p.2.status = BookStatus.reading ∧
        pyLower (pyStrip p.2.title) = pyLower (pyStrip bd.title))) then
      (s, Except.error (StoreError.duplicateName bd.title))
    else mkAddBook now bd s
  else mkAddBook now bd s

/-- The `setattr` loop of `BookStore.update_book`: every provided field is
applied verbatim, in the declaration order of `BookUpdate`. -/
def applyBookUpdate (b : Book) (u : BookUpdate) : Book :=
  let b := match u.title with | some v => { b with title := v } | none => b
  let b := match u.author with | some v => { b with author := v } | none => b
  let b := match u.status with | some v => { b with status := v } | none => b
  let b := match u.notes with | some v => { b with notes := v } | none => b
  let b := match u.rating with | some v => { b with rating := some v } | none => b
  let b := match u.reason with | some v => { b with reason := v } | none => b
  let b := match u.progress with | some v => { b with progress := v } | none => b
  b

/-- The `ended_at` adjustment of `BookStore.update_book` (runs only when a
status was provided; `b.status` is already the new status). -/
def adjustBookEnded (now : Nat) (oldStatus : BookStatus) (b : Book) : Book :=
  if bookTerminal b.status ∧ ¬ bookTerminal oldStatus then
    { b with ended_at := some now }
  else if bookTerminal oldStatus ∧ ¬ bookTerminal b.status then
    { b with ended_at := none }
  else b

/-- The trailing duplicate-title check of `BookStore.update_book` (runs when a
title was provided and the book is now READING), then save and return. -/
def finishBookUpdate (bid : Nat) (u : BookUpdate) (s : BookStore) (b : Book) :
    BookStore × Except StoreError Book :=
  if u.title ≠ none ∧ b.status = BookStatus.reading then
    if hasReadingDup s.books bid b.title then
      (s, Except.error (StoreError.duplicateName b.title))
    else (s, Except.ok b)
  else (s, Except.ok b)

/-- `BookStore.update_book`.  All provided fields are applied (in place, hence
visible in the returned store) *before* the limit / duplicate checks, so a
failing update leaves the mutations applied. -/
def updateBook (now bid : Nat) (u : BookUpdate) (s : BookStore) :
    BookStore × Except StoreError Book :=
  match findItem s.books bid with
  | none => (s, Except.error (StoreError.notFound bid))
  | some book0 =>
    let oldStatus := book0.status
    let book1 := applyBookUpdate book0 u
    let s1 : BookStore := { s with books := setItem s.books bid book1 }
    match u.status with
    | none => finishBookUpdate bid u s1 book1
    | some newStatus =>
      if newStatus = BookStatus.reading ∧ oldStatus ≠ BookStatus.reading then
        let readingCount := (s1.books.filter (fun p =>
          decide (p.2.status = BookStatus.reading ∧ p.2.id ≠ bid))).length
        if readingCount ≥ s1.limit then
          (s1, Except.error (StoreError.limitExceeded s1.limit))
        else if u.title = none ∧ hasReadingDup s1.books bid book1.title then
          (s1, Except.error (StoreError.duplicateName book1.title))
        else
          let book2 := adjustBookEnded now oldStatus book1
          finishBookUpdate bid u { s1 with books := setItem s1.books bid book2 } book2
      else
        let book2 := adjustBookEnded now oldStatus book1
        finishBookUpdate bid u { s1 with books := setItem s1.books bid book2 } book2

/-- `BookStore.delete_book`. -/
def deleteBook (bid : Nat) (s : BookStore) : BookStore × Except StoreError Bool :=
  if (findItem s.books bid).isSome then
    ({ s with books := delItem s.books bid }, Except.ok true)
  else
    (s, Except.error (StoreError.notFound bid))

/-- `BookStore.update_limit`: rejects values below 1 with `ValueError`
(modelled as `invalidLimit`) and stores any other requested value as given —
there is no upper clamp for books. -/
def updateBookLimit (newLimit : Int) (s : BookStore) :
    BookStore × Except StoreError Unit :=
  if newLimit < 1 then
    (s, Except.error StoreError.invalidLimit)
  else
    ({ s with limit := newLimit.toNat }, Except.ok ())

/-- A game status is terminal (`in [GameStatus.FINISHED, GameStatus.DROPPED]`). -/
def gameTerminal (st : GameStatus) : Prop :=
  st = GameStatus.finished ∨ st = GameStatus.dropped

instance (st : GameStatus) : Decidable (gameTerminal st) := by
  unfold gameTerminal; infer_instance

/-- The name assignment of `update_game` as a pure function on the game. -/
def nameApply (u : GameUpdate) (g : Game) : Game :=
  match u.name with
  | some n => { g with name := pyStrip n }
  | none => g

/-- The `ended_at` / `status` mutations of `_handle_status_change` as a pure
function (the checks are handled separately). -/
def gameStatusApply (now : Nat) (current ns : GameStatus) (g : Game) : Game :=
  if ns = GameStatus.active then
    { g with ended_at := none, status := ns }
  else if ns = GameStatus.paused ∨ ns = GameStatus.casual ∨ ns = GameStatus.planned then
    { g with ended_at := none, status := ns }
  else if current = GameStatus.active then
    { g with ended_at := some now, status := ns }
  else
    { g with status := ns }

/-- The whole field part of a successful `update_game` as a pure function. -/
def gameUpdateApply (now : Nat) (u : GameUpdate) (g : Game) : Game :=
  applyGameFields u
    (match u.status with
     | some ns => gameStatusApply now g.status ns (nameApply u g)
     | none => nameApply u g)

/-! ### Serialization (`GameStore._save_data` / `GameStore._load_data`)

Timestamps are abstracted: `isoformat` / `fromisoformat` is an injective
encode/decode pair, modelled as the identity on the abstract `Nat` timestamp
("modulo timestamp string formatting").  Dict keys `str(game_id)` /
`int(game_id_str)` are modelled as base-10 digit strings via `Nat.digits`. -/

/-- Rendering of the `str`-valued `GameStatus` enum by `model_dump`. -/
def gameStatusStr : GameStatus → String
  | GameStatus.active => "active"
  | GameStatus.paused => "paused"
  | GameStatus.casual => "casual"
  | GameStatus.planned => "planned"
  | GameStatus.finished => "finished"
  | GameStatus.dropped => "dropped"

/-- Parsing of a status string back into the enum (`Game(**game_dict)`). -/
def gameStatusOfStr (s : String) : Option GameStatus :=
  if s = "active" then some GameStatus.active
  else if s = "paused" then some GameStatus.paused
  else if s = "casual" then some GameStatus.casual
  else if s = "planned" then some GameStatus.planned
  else if s = "finished" then some GameStatus.finished
  else if s = "dropped" then some GameStatus.dropped
  else none

/-- One game's entry in the persisted JSON document (`game.model_dump()` with
datetimes converted to strings). -/
structure SavedGame where
  id : Nat
  user_id : Nat
  name : String
  status : String
  notes : String
  rating : Option Nat
  reason : String
  created_at : Nat
  ended_at : Option Nat
deriving DecidableEq, Repr

/-- The persisted JSON document `{"games": {...}, "next_id": ..., "limit": ...}`;
the dict key is the decimal rendering of the id. -/
structure SavedData where
  games : List (List Nat × SavedGame)
  next_id : Nat
  limit : Nat
deriving DecidableEq, Repr

/-- Field extraction performed by `_save_data` for one game. -/
def gameToDict (g : Game) : SavedGame :=
  { id := g.id, user_id := g.user_id, name := g.name,
    status := gameStatusStr g.status, notes := g.notes, rating := g.rating,
    reason := g.reason, created_at := g.created_at, ended_at := g.ended_at }

/-- `GameStore._save_data` (the in-memory → document direction). -/
def saveData (s : GameStore) : SavedData :=
  { games := s.games.map (fun p => (Nat.digits 10 p.1, gameToDict p.2)),
    next_id := s.next_id, limit := s.limit }

/-- `Game(**game_dict)`: pydantic validation of one loaded entry (status must
parse; `name` respects `min_length=1, max_length=100`; `rating` at most 10). -/
def dictToGame (d : SavedGame) : Option Game :=
  match gameStatusOfStr d.status with
  | none => none
  | some st =>
    if 1 ≤ d.name.length ∧ d.name.length ≤ 100 ∧ d.rating.getD 0 ≤ 10 then
      some { id := d.id, user_id := d.user_id, name := d.name, status := st,
             notes := d.notes, rating := d.rating, reason := d.reason,
             created_at := d.created_at, ended_at := d.ended_at }
    else none

/-- The loading loop of `_load_data`; any entry failing validation aborts the
whole load (the surrounding `except` clause). -/
def loadGames : List (List Nat × SavedGame) → Option (List (Nat × Game))
  | [] => some []
  | p :: ps =>
    match dictToGame p.2, loadGames ps with
    | some g, some gs => some ((Nat.ofDigits 10 p.1, g) :: gs)
    | _, _ => none

/-- `GameStore._load_data` on an existing document; a failed load falls back
to the empty store with `next_id = 1`, `limit = 5`. -/
def loadData (d : SavedData) : GameStore :=
  match loadGames d.games with
  | some gs => { games := gs, next_id := d.next_id, limit := d.limit }
  | none => { games := [], next_id := 1, limit := 5 }

/-! ### Well-formedness

A Python dict keyed by id, whose values carry their own key and whose keys
were assigned from an increasing `_next_id`, always satisfies: keys are
pairwise distinct, each entry's key is its game's `id`, and every id is below
`next_id`. -/

/-- Well-formedness of a game store. -/
def WFg (s : GameStore) : Prop :=
  s.games.Pairwise (fun a b => a.1 ≠ b.1) ∧
    ∀ p ∈ s.games, p.1 = p.2.id ∧ p.2.id < s.next_id

/-- Well-formedness of a book store. -/
def WFb (s : BookStore) : Prop :=
  s.books.Pairwise (fun a b => a.1 ≠ b.1) ∧
    ∀ p ∈ s.books, p.1 = p.2.id ∧ p.2.id < s.next_id

instance (s : GameStore) : Decidable (WFg s) := by
  unfold WFg; infer_instance

instance (s : BookStore) : Decidable (WFb s) := by
  unfold WFb; infer_instance

/-- Forward direction of the `ended_at` invariant for games: a non-null
`ended_at` only occurs on terminal statuses. -/
def GEndedSub (s : GameStore) : Prop :=
  ∀ p ∈ s.games, p.2.ended_at ≠ none → gameTerminal p.2.status

/-- The full `ended_at` ↔ terminal-status invariant for books. -/
def BEndedIff (s : BookStore) : Prop :=
  ∀ p ∈ s.books, (p.2.ended_at ≠ none ↔ bookTerminal p.2.status)

instance (s : GameStore) : Decidable (GEndedSub s) := by
  unfold GEndedSub; infer_instance

instance (s : BookStore) : Decidable (BEndedIff s) := by
  unfold BEndedIff; infer_instance

/-! ### Concrete fixtures for counterexamples and witnesses -/

/-- A game with the given id, name, status (other fields defaulted). -/
def mkG (i : Nat) (nm : String) (st : GameStatus) (e : Option Nat := none) : Game :=
  { id := i, user_id := 1, name := nm, status := st, notes := "", rating := none,
    reason := "", created_at := 0, ended_at := e }

/-- A book with the given id, title, status (other fields defaulted). -/
def mkB (i : Nat) (t : String) (st : BookStatus) (e : Option Nat := none) : Book :=
  { id := i, user_id := 1, title := t, author := "", status := st, notes := "",
    rating := none, reason := "", progress := "", created_at := 0, ended_at := e }

/-- One paused game. -/
def gsPaused : GameStore := ⟨[(1, mkG 1 "Alpha" GameStatus.paused)], 2, 5⟩

/-- One active and one paused game, limit 1 (the limit is already reached). -/
def gsTwo : GameStore :=
  ⟨[(1, mkG 1 "A" GameStatus.active), (2, mkG 2 "B" GameStatus.paused)], 3, 1⟩

/-- Two active games, limit 5. -/
def gsTwoActive : GameStore :=
  ⟨[(1, mkG 1 "A" GameStatus.active), (2, mkG 2 "B" GameStatus.active)], 3, 5⟩

/-- One active game "Foo", limit 1 (limit reached). -/
def gsFooFull : GameStore := ⟨[(1, mkG 1 "Foo" GameStatus.active)], 2, 1⟩

/-- One active game "Foo", limit 5 (room left). -/
def gsFoo : GameStore := ⟨[(1, mkG 1 "Foo" GameStatus.active)], 2, 5⟩

/-- The empty book store. -/
def bsEmpty : BookStore := ⟨[], 1, 3⟩

/-- One reading book. -/
def bsReading : BookStore := ⟨[(1, mkB 1 "Alpha" BookStatus.reading)], 2, 3⟩

/-- One paused book. -/
def bsPaused : BookStore := ⟨[(1, mkB 1 "Alpha" BookStatus.paused)], 2, 3⟩

/-- One reading book "Foo", limit 3. -/
def bsFoo : BookStore := ⟨[(1, mkB 1 "Foo" BookStatus.reading)], 2, 3⟩

/-- A reading book "Foo" and a paused book "FOO " whose trimmed lowercased
titles collide. -/
def bsDupPair : BookStore :=
  ⟨[(1, mkB 1 "Foo" BookStatus.reading), (2, mkB 2 "FOO " BookStatus.paused)], 3, 3⟩

/-- The whole field part of a successful `update_book` as a pure function. -/
def bookUpdateApply (now : Nat) (u : BookUpdate) (b : Book) : Book :=
  match u.status with
  | some _ => adjustBookEnded now b.status (applyBookUpdate b u)
  | none => applyBookUpdate b u

/-! ### Association-list lemmas -/

theorem findItem_mem {α : Type} {l : List (Nat × α)} {k : Nat} {v : α}
    (h : findItem l k = some v) : (k, v) ∈ l := by
  induction l with
  | nil => simp [findItem] at h
  | cons p ps ih =>
    rw [findItem] at h
    by_cases hk : p.1 = k
    · rw [if_pos hk] at h
      injection h with h
      subst h; subst hk
      exact List.mem_cons_self _ _
    · rw [if_neg hk] at h
      exact List.mem_cons_of_mem _ (ih h)

theorem findItem_eq_none_of_all {α : Type} {l : List (Nat × α)} {k : Nat}
    (h : ∀ p ∈ l, p.1 ≠ k) : findItem l k = none := by
  induction l with
  | nil => rfl
  | cons p ps ih =>
    rw [findItem, if_neg (h p (List.mem_cons_self _ _))]
    exact ih (fun q hq => h q (List.mem_cons_of_mem _ hq))

theorem setItem_eq_of_all_ne {α : Type} {l : List (Nat × α)} {k : Nat} {v : α}
    (h : ∀ p ∈ l, p.1 ≠ k) : setItem l k v = l := by
  unfold setItem
  conv_rhs => rw [← List.map_id l]
  exact List.map_congr_left (fun p hp => by rw [if_neg (h p hp)]; rfl)

theorem mem_setItem {α : Type} {l : List (Nat × α)} {k : Nat} {v : α} {p : Nat × α}
    (h : p ∈ setItem l k v) : p ∈ l ∨ p = (k, v) := by
  unfold setItem at h
  obtain ⟨q, hq, rfl⟩ := List.mem_map.1 h
  by_cases h1 : q.1 = k
  · right; rw [if_pos h1, h1]
  · left; rwa [if_neg h1]

theorem pairwise_keys_setItem {α : Type} {l : List (Nat × α)} {k : Nat} {v : α}
    (h : l.Pairwise fun a b => a.1 ≠ b.1) :
    (setItem l k v).Pairwise fun a b => a.1 ≠ b.1 := by
  have hf : ∀ p : Nat × α, ((if p.1 = k then (p.1, v) else p) : Nat × α).1 = p.1 :=
    fun p => by split <;> rfl
  unfold setItem
  rw [List.pairwise_map]
  exact h.imp (fun {a b} hab => by rw [hf a, hf b]; exact hab)

theorem findItem_setItem_ne {α : Type} {l : List (Nat × α)} {k k' : Nat} {v : α}
    (hk : k' ≠ k) : findItem (setItem l k v) k' = findItem l k' := by
  induction l with
  | nil => rfl
  | cons p ps ih =>
    by_cases h1 : p.1 = k
    · have hd : setItem (p :: ps) k v = (p.1, v) :: setItem ps k v := by
        unfold setItem; rw [List.map_cons, if_pos h1]
      have hne : ¬ p.1 = k' := by rw [h1]; exact fun he => hk he.symm
      rw [hd, findItem, findItem]
      show (if p.1 = k' then _ else _) = _
      rw [if_neg hne, if_neg hne, ih]
    · have hd : setItem (p :: ps) k v = p :: setItem ps k v := by
        unfold setItem; rw [List.map_cons, if_neg h1]
      rw [hd, findItem, findItem]
      by_cases h2 : p.1 = k'
      · rw [if_pos h2, if_pos h2]
      · rw [if_neg h2, if_neg h2, ih]

theorem findItem_delItem_self {α : Type} {l : List (Nat × α)} {k : Nat} :
    findItem (delItem l k) k = none := by
  apply findItem_eq_none_of_all
  intro p hp
  have := (List.mem_filter.1 hp).2
  simpa using this

theorem findItem_delItem_ne {α : Type} {l : List (Nat × α)} {k k' : Nat}
    (hk : k' ≠ k) : findItem (delItem l k) k' = findItem l k' := by
  induction l with
  | nil => rfl
  | cons p ps ih =>
    by_cases h1 : p.1 = k
    · have hd : delItem (p :: ps) k = delItem ps k := by
        unfold delItem
        rw [List.filter_cons]
        simp [h1]
      rw [hd, ih, findItem, if_neg (by rw [h1]; exact fun he => hk he.symm)]
    · have hd : delItem (p :: ps) k = p :: delItem ps k := by
        unfold delItem
        rw [List.filter_cons]
        simp [h1]
      rw [hd, findItem, findItem]
      by_cases h2 : p.1 = k'
      · rw [if_pos h2, if_pos h2]
      · rw [if_neg h2, if_neg h2, ih]

theorem countP_setItem {α : Type} {l : List (Nat × α)} {k : Nat} {v w : α}
    (hp : l.Pairwise fun a b => a.1 ≠ b.1) (hm : (k, w) ∈ l)
    (f : Nat × α → Bool) :
    (setItem l k v).countP f + (if f (k, w) then 1 else 0) =
      l.countP f + (if f (k, v) then 1 else 0) := by
  induction l with
  | nil => cases hm
  | cons q t ih =>
    obtain ⟨hq1, hq2⟩ := List.pairwise_cons.1 hp
    rcases List.mem_cons.1 hm with heq | hmt
    · have hqk : q.1 = k := by rw [← heq]
      have hqv : q = (k, w) := heq.symm
      have ht : setItem t k v = t :=
        setItem_eq_of_all_ne (fun r hr => by
          intro hrk; exact (hq1 r hr) (by rw [hqk, hrk]))
      unfold setItem
      simp only [List.map_cons, if_pos hqk]
      show List.countP f ((q.1, v) :: setItem t k v) + _ = _
      rw [ht, List.countP_cons, List.countP_cons, hqv]
      simp only [hqk]
      omega
    · have hqk : q.1 ≠ k := hq1 (k, w) hmt
      unfold setItem
      simp only [List.map_cons, if_neg hqk]
      show List.countP f (q :: setItem t k v) + _ = _
      rw [List.countP_cons, List.countP_cons]
      have := ih hq2 hmt
      omega

theorem setItem_setItem {α : Type} (l : List (Nat × α)) (k : Nat) (v w : α) :
    setItem (setItem l k v) k w = setItem l k w := by
  unfold setItem
  rw [List.map_map]
  apply List.map_congr_left
  intro p _
  by_cases h : p.1 = k <;> simp [Function.comp, h]

/-! ### Success-shape lemmas for the update operations -/

theorem finishGameUpdate_eq (gid : Nat) (u : GameUpdate) (s : GameStore) (game : Game) :
    finishGameUpdate gid u s game =
      ({ s with games := setItem s.games gid (applyGameFields u game) },
        Except.ok (applyGameFields u game)) := rfl

/-- A successful `update_game` stores exactly `gameUpdateApply now u g0` at the
updated key and leaves `next_id` and `limit` alone. -/
theorem updateGame_ok {now gid : Nat} {u : GameUpdate} {s s' : GameStore} {g' : Game}
    (h : updateGame now gid u s = (s', Except.ok g')) :
    ∃ g0, findItem s.games gid = some g0 ∧
      g' = gameUpdateApply now u g0 ∧
      s'.games = setItem s.games gid g' ∧
      s'.next_id = s.next_id ∧ s'.limit = s.limit := by
  unfold updateGame at h
  cases hfind : findItem s.games gid with
  | none =>
    rw [hfind] at h
    injection h with h1 h2
    exact absurd h2 (by simp)
  | some g0 =>
    rw [hfind] at h
    refine ⟨g0, rfl, ?_⟩
    cases hn : u.name with
    | none =>
      simp only [hn] at h
      cases hs : u.status with
      | none =>
        simp only [hs, finishGameUpdate_eq] at h
        injection h with h1 h2
        injection h2 with h2
        subst h1; subst h2
        refine ⟨?_, rfl, rfl, rfl⟩
        simp [gameUpdateApply, hs, nameApply, hn]
      | some ns =>
        simp only [hs] at h
        unfold gameStatusChange at h
        simp only [hn] at h
        split_ifs at h with h1 h2 h3 h4 h5 h6 <;>
          first
          | (rw [finishGameUpdate_eq] at h
             injection h with ha hb
             injection hb with hb
             subst ha; subst hb
             refine ⟨?_, ?_, rfl, rfl⟩
             · simp_all [gameUpdateApply, gameStatusApply, nameApply]
             · simp [setItem_setItem])
          | (injection h with ha hb; simp at hb)
    | some n =>
      simp only [hn] at h
      split_ifs at h with hdup
      · injection h with h1 h2
        exact absurd h2 (by simp)
      · cases hs : u.status with
        | none =>
          simp only [hs, finishGameUpdate_eq] at h
          injection h with h1 h2
          injection h2 with h2
          subst h1; subst h2
          refine ⟨?_, ?_, rfl, rfl⟩
          · simp [gameUpdateApply, hs, nameApply, hn]
          · simp [setItem_setItem]
        | some ns =>
          simp only [hs] at h
          unfold gameStatusChange at h
          simp only [hn] at h
          split_ifs at h with h1 h2 h3 h4 h5 h6 <;>
            first
            | (rw [finishGameUpdate_eq] at h
               injection h with ha hb
               injection hb with hb
               subst ha; subst hb
               refine ⟨?_, ?_, rfl, rfl⟩
               · simp_all [gameUpdateApply, gameStatusApply, nameApply]
               · simp [setItem_setItem])
            | (injection h with ha hb; simp at hb)

theorem finishBookUpdate_ok {bid : Nat} {u : BookUpdate} {s s' : BookStore} {b b' : Book}
    (h : finishBookUpdate bid u s b = (s', Except.ok b')) : s' = s ∧ b' = b := by
  unfold finishBookUpdate at h
  split_ifs at h <;>
    first
    | (injection h with ha hb; injection hb with hb; exact ⟨ha.symm, hb.symm⟩)
    | (injection h with ha hb; simp at hb)

/-- A successful `update_book` stores exactly `bookUpdateApply now u b0` at the
updated key and leaves `next_id` and `limit` alone. -/
theorem updateBook_ok {now bid : Nat} {u : BookUpdate} {s s' : BookStore} {b' : Book}
    (h : updateBook now bid u s = (s', Except.ok b')) :
    ∃ b0, findItem s.books bid = some b0 ∧
      b' = bookUpdateApply now u b0 ∧
      s'.books = setItem s.books bid b' ∧
      s'.next_id = s.next_id ∧ s'.limit = s.limit := by
  unfold updateBook at h
  cases hfind : findItem s.books bid with
  | none =>
    rw [hfind] at h
    injection h with h1 h2
    simp at h2
  | some b0 =>
    rw [hfind] at h
    refine ⟨b0, rfl, ?_⟩
    cases hs : u.status with
    | none =>
      simp only [hs] at h
      obtain ⟨ha, hb⟩ := finishBookUpdate_ok h
      refine ⟨?_, ?_, ?_, ?_⟩
      · rw [hb]; simp [bookUpdateApply, hs]
      · rw [ha, hb]
      · rw [ha]
      · rw [ha]
    | some ns =>
      simp only [hs] at h
      split_ifs at h with hc hlim hdup <;>
        first
        | (obtain ⟨ha, hb⟩ := finishBookUpdate_ok h
           refine ⟨?_, ?_, ?_, ?_⟩
           · rw [hb]; simp [bookUpdateApply, hs]
           · rw [ha, hb]; simp [setItem_setItem]
           · rw [ha]
           · rw [ha])
        | (injection h with ha hb; simp at hb)

/-! ### Field computations for the pure update functions -/

theorem applyGameFields_proj (u : GameUpdate) (g : Game) :
    (applyGameFields u g).name = g.name ∧
    (applyGameFields u g).status = g.status ∧
    (applyGameFields u g).ended_at = g.ended_at ∧
    (applyGameFields u g).created_at = g.created_at ∧
    (applyGameFields u g).id = g.id ∧
    (applyGameFields u g).user_id = g.user_id ∧
    (applyGameFields u g).notes = u.notes.getD g.notes ∧
    (applyGameFields u g).reason = u.reason.getD g.reason ∧
    (applyGameFields u g).rating =
      (match u.rating with | some v => some v | none => g.rating) := by
  unfold applyGameFields
  cases u.notes <;> cases u.rating <;> cases u.reason <;> simp

theorem nameApply_proj (u : GameUpdate) (g : Game) :
    (nameApply u g).name = (match u.name with | some n => pyStrip n | none => g.name) ∧
    (nameApply u g).status = g.status ∧
    (nameApply u g).ended_at = g.ended_at ∧
    (nameApply u g).created_at = g.created_at ∧
    (nameApply u g).id = g.id ∧
    (nameApply u g).user_id = g.user_id ∧
    (nameApply u g).notes = g.notes ∧
    (nameApply u g).reason = g.reason ∧
    (nameApply u g).rating = g.rating := by
  unfold nameApply
  cases u.name <;> simp

theorem gameStatusApply_proj (now : Nat) (cur ns : GameStatus) (g : Game) :
    (gameStatusApply now cur ns g).name = g.name ∧
    (gameStatusApply now cur ns g).status = ns ∧
    (gameStatusApply now cur ns g).created_at = g.created_at ∧
    (gameStatusApply now cur ns g).id = g.id ∧
    (gameStatusApply now cur ns g).user_id = g.user_id ∧
    (gameStatusApply now cur ns g).notes = g.notes ∧
    (gameStatusApply now cur ns g).reason = g.reason ∧
    (gameStatusApply now cur ns g).rating = g.rating ∧
    (gameStatusApply now cur ns g).ended_at =
      (if ns = GameStatus.active ∨ ns = GameStatus.paused ∨ ns = GameStatus.casual ∨
          ns = GameStatus.planned then none
       else if cur = GameStatus.active then some now
       else g.ended_at) := by
  unfold gameStatusApply
  split_ifs <;> simp_all

theorem applyBookUpdate_proj (u : BookUpdate) (b : Book) :
    (applyBookUpdate b u).title = u.title.getD b.title ∧
    (applyBookUpdate b u).author = u.author.getD b.author ∧
    (applyBookUpdate b u).status = u.status.getD b.status ∧
    (applyBookUpdate b u).notes = u.notes.getD b.notes ∧
    (applyBookUpdate b u).reason = u.reason.getD b.reason ∧
    (applyBookUpdate b u).progress = u.progress.getD b.progress ∧
    (applyBookUpdate b u).rating =
      (match u.rating with | some v => some v | none => b.rating) ∧
    (applyBookUpdate b u).id = b.id ∧
    (applyBookUpdate b u).user_id = b.user_id ∧
    (applyBookUpdate b u).created_at = b.created_at ∧
    (applyBookUpdate b u).ended_at = b.ended_at := by
  unfold applyBookUpdate
  cases u.title <;> cases u.author <;> cases u.status <;> cases u.notes <;>
    cases u.rating <;> cases u.reason <;> cases u.progress <;> simp

theorem adjustBookEnded_proj (now : Nat) (old : BookStatus) (b : Book) :
    (adjustBookEnded now old b).title = b.title ∧
    (adjustBookEnded now old b).author = b.author ∧
    (adjustBookEnded now old b).status = b.status ∧
    (adjustBookEnded now old b).notes = b.notes ∧
    (adjustBookEnded now old b).reason = b.reason ∧
    (adjustBookEnded now old b).progress = b.progress ∧
    (adjustBookEnded now old b).rating = b.rating ∧
    (adjustBookEnded now old b).id = b.id ∧
    (adjustBookEnded now old b).user_id = b.user_id ∧
    (adjustBookEnded now old b).created_at = b.created_at ∧
    (adjustBookEnded now old b).ended_at =
      (if bookTerminal b.status ∧ ¬ bookTerminal old then some now
       else if bookTerminal old ∧ ¬ bookTerminal b.status then none
       else b.ended_at) := by
  unfold adjustBookEnded
  split_ifs <;> simp_all

theorem gameUpdateApply_ended (now : Nat) (u : GameUpdate) (g : Game) :
    (gameUpdateApply now u g).ended_at =
      (match u.status with
       | none => g.ended_at
       | some ns =>
         if ns = GameStatus.active ∨ ns = GameStatus.paused ∨ ns = GameStatus.casual ∨
            ns = GameStatus.planned then none
         else if g.status = GameStatus.active then some now
         else g.ended_at) := by
  unfold gameUpdateApply
  cases u.status with
  | none => exact ((applyGameFields_proj _ _).2.2.1).trans ((nameApply_proj _ _).2.2.1)
  | some ns =>
    rw [(applyGameFields_proj _ _).2.2.1,
      (gameStatusApply_proj _ _ _ _).2.2.2.2.2.2.2.2,
      (nameApply_proj _ _).2.2.1]

theorem gameUpdateApply_status (now : Nat) (u : GameUpdate) (g : Game) :
    (gameUpdateApply now u g).status = u.status.getD g.status := by
  unfold gameUpdateApply
  cases u.status with
  | none => exact ((applyGameFields_proj _ _).2.1).trans ((nameApply_proj _ _).2.1)
  | some ns => rw [(applyGameFields_proj _ _).2.1, (gameStatusApply_proj _ _ _ _).2.1]; rfl

theorem gameUpdateApply_name (now : Nat) (u : GameUpdate) (g : Game) :
    (gameUpdateApply now u g).name =
      (match u.name with | some n => pyStrip n | none => g.name) := by
  unfold gameUpdateApply
  cases u.status with
  | none => exact ((applyGameFields_proj _ _).1).trans ((nameApply_proj _ _).1)
  | some ns => rw [(applyGameFields_proj _ _).1, (gameStatusApply_proj _ _ _ _).1,
      (nameApply_proj _ _).1]

theorem gameUpdateApply_notes (now : Nat) (u : GameUpdate) (g : Game) :
    (gameUpdateApply now u g).notes = u.notes.getD g.notes := by
  unfold gameUpdateApply
  cases u.status with
  | none => rw [(applyGameFields_proj _ _).2.2.2.2.2.2.1, (nameApply_proj _ _).2.2.2.2.2.2.1]
  | some ns => rw [(applyGameFields_proj _ _).2.2.2.2.2.2.1,
      (gameStatusApply_proj _ _ _ _).2.2.2.2.2.1, (nameApply_proj _ _).2.2.2.2.2.2.1]

theorem gameUpdateApply_reason (now : Nat) (u : GameUpdate) (g : Game) :
    (gameUpdateApply now u g).reason = u.reason.getD g.reason := by
  unfold gameUpdateApply
  cases u.status with
  | none => rw [(applyGameFields_proj _ _).2.2.2.2.2.2.2.1, (nameApply_proj _ _).2.2.2.2.2.2.2.1]
  | some ns => rw [(applyGameFields_proj _ _).2.2.2.2.2.2.2.1,
      (gameStatusApply_proj _ _ _ _).2.2.2.2.2.2.1, (nameApply_proj _ _).2.2.2.2.2.2.2.1]

theorem gameUpdateApply_rating (now : Nat) (u : GameUpdate) (g : Game) :
    (gameUpdateApply now u g).rating =
      (match u.rating with | some v => some v | none => g.rating) := by
  unfold gameUpdateApply
  cases u.status with
  | none => rw [(applyGameFields_proj _ _).2.2.2.2.2.2.2.2, (nameApply_proj _ _).2.2.2.2.2.2.2.2]
  | some ns => rw [(applyGameFields_proj _ _).2.2.2.2.2.2.2.2,
      (gameStatusApply_proj _ _ _ _).2.2.2.2.2.2.2.1, (nameApply_proj _ _).2.2.2.2.2.2.2.2]

theorem gameUpdateApply_created (now : Nat) (u : GameUpdate) (g : Game) :
    (gameUpdateApply now u g).created_at = g.created_at := by
  unfold gameUpdateApply
  cases u.status with
  | none => rw [(applyGameFields_proj _ _).2.2.2.1, (nameApply_proj _ _).2.2.2.1]
  | some ns => rw [(applyGameFields_proj _ _).2.2.2.1,
      (gameStatusApply_proj _ _ _ _).2.2.1, (nameApply_proj _ _).2.2.2.1]

theorem gameUpdateApply_id (now : Nat) (u : GameUpdate) (g : Game) :
    (gameUpdateApply now u g).id = g.id := by
  unfold gameUpdateApply
  cases u.status with
  | none => rw [(applyGameFields_proj _ _).2.2.2.2.1, (nameApply_proj _ _).2.2.2.2.1]
  | some ns => rw [(applyGameFields_proj _ _).2.2.2.2.1,
      (gameStatusApply_proj _ _ _ _).2.2.2.1, (nameApply_proj _ _).2.2.2.2.1]

theorem bookUpdateApply_ended (now : Nat) (u : BookUpdate) (b : Book) :
    (bookUpdateApply now u b).ended_at =
      (match u.status with
       | none => b.ended_at
       | some ns =>
         if bookTerminal ns ∧ ¬ bookTerminal b.status then some now
         else if bookTerminal b.status ∧ ¬ bookTerminal ns then none
         else b.ended_at) := by
  unfold bookUpdateApply
  cases hs : u.status with
  | none => exact (applyBookUpdate_proj _ _).2.2.2.2.2.2.2.2.2.2
  | some ns =>
    rw [(adjustBookEnded_proj _ _ _).2.2.2.2.2.2.2.2.2.2,
      (applyBookUpdate_proj u b).2.2.1, (applyBookUpdate_proj u b).2.2.2.2.2.2.2.2.2.2, hs]
    rfl

theorem bookUpdateApply_status (now : Nat) (u : BookUpdate) (b : Book) :
    (bookUpdateApply now u b).status = u.status.getD b.status := by
  unfold bookUpdateApply
  cases hs : u.status with
  | none => rw [(applyBookUpdate_proj _ _).2.2.1, hs]
  | some ns => rw [(adjustBookEnded_proj _ _ _).2.2.1, (applyBookUpdate_proj _ _).2.2.1, hs]

theorem bookUpdateApply_title (now : Nat) (u : BookUpdate) (b : Book) :
    (bookUpdateApply now u b).title = u.title.getD b.title := by
  unfold bookUpdateApply
  cases u.status with
  | none => exact (applyBookUpdate_proj _ _).1
  | some ns => rw [(adjustBookEnded_proj _ _ _).1, (applyBookUpdate_proj _ _).1]

theorem bookUpdateApply_author (now : Nat) (u : BookUpdate) (b : Book) :
    (bookUpdateApply now u b).author = u.author.getD b.author := by
  unfold bookUpdateApply
  cases u.status with
  | none => exact (applyBookUpdate_proj _ _).2.1
  | some ns => rw [(adjustBookEnded_proj _ _ _).2.1, (applyBookUpdate_proj _ _).2.1]

theorem bookUpdateApply_notes (now : Nat) (u : BookUpdate) (b : Book) :
    (bookUpdateApply now u b).notes = u.notes.getD b.notes := by
  unfold bookUpdateApply
  cases u.status with
  | none => exact (applyBookUpdate_proj _ _).2.2.2.1
  | some ns => rw [(adjustBookEnded_proj _ _ _).2.2.2.1, (applyBookUpdate_proj _ _).2.2.2.1]

theorem bookUpdateApply_reason (now : Nat) (u : BookUpdate) (b : Book) :
    (bookUpdateApply now u b).reason = u.reason.getD b.reason := by
  unfold bookUpdateApply
  cases u.status with
  | none => exact (applyBookUpdate_proj _ _).2.2.2.2.1
  | some ns => rw [(adjustBookEnded_proj _ _ _).2.2.2.2.1, (applyBookUpdate_proj _ _).2.2.2.2.1]

theorem bookUpdateApply_progress (now : Nat) (u : BookUpdate) (b : Book) :
    (bookUpdateApply now u b).progress = u.progress.getD b.progress := by
  unfold bookUpdateApply
  cases u.status with
  | none => exact (applyBookUpdate_proj _ _).2.2.2.2.2.1
  | some ns => rw [(adjustBookEnded_proj _ _ _).2.2.2.2.2.1, (applyBookUpdate_proj _ _).2.2.2.2.2.1]

theorem bookUpdateApply_rating (now : Nat) (u : BookUpdate) (b : Book) :
    (bookUpdateApply now u b).rating =
      (match u.rating with | some v => some v | none => b.rating) := by
  unfold bookUpdateApply
  cases u.status with
  | none => exact (applyBookUpdate_proj _ _).2.2.2.2.2.2.1
  | some ns => rw [(adjustBookEnded_proj _ _ _).2.2.2.2.2.2.1, (applyBookUpdate_proj _ _).2.2.2.2.2.2.1]

theorem bookUpdateApply_created (now : Nat) (u : BookUpdate) (b : Book) :
    (bookUpdateApply now u b).created_at = b.created_at := by
  unfold bookUpdateApply
  cases u.status with
  | none => exact (applyBookUpdate_proj _ _).2.2.2.2.2.2.2.2.2.1
  | some ns => rw [(adjustBookEnded_proj _ _ _).2.2.2.2.2.2.2.2.2.1,
      (applyBookUpdate_proj _ _).2.2.2.2.2.2.2.2.2.1]

theorem bookUpdateApply_id (now : Nat) (u : BookUpdate) (b : Book) :
    (bookUpdateApply now u b).id = b.id := by
  unfold bookUpdateApply
  cases u.status with
  | none => exact (applyBookUpdate_proj _ _).2.2.2.2.2.2.2.1
  | some ns => rw [(adjustBookEnded_proj _ _ _).2.2.2.2.2.2.2.1,
      (applyBookUpdate_proj _ _).2.2.2.2.2.2.2.1]

/-- A successful `add_game` appends the freshly built game under key
`next_id` and bumps the counter. -/
theorem addGame_ok {now : Nat} {gd : GameCreate} {s s' : GameStore} {g : Game}
    (h : addGame now gd s = (s', Except.ok g)) :
    g = mkNewGame now gd s ∧
    s'.games = s.games ++ [(s.next_id, g)] ∧
    s'.next_id = s.next_id + 1 ∧ s'.limit = s.limit := by
  unfold addGame mkAddGame at h
  split_ifs at h <;>
    first
    | (injection h with ha hb
       injection hb with hb
       subst ha; subst hb
       exact ⟨rfl, rfl, rfl, rfl⟩)
    | (injection h with ha hb; simp at hb)

/-- A successful `add_book` appends the freshly built book under key
`next_id` and bumps the counter. -/
theorem addBook_ok {now : Nat} {bd : BookCreate} {s s' : BookStore} {b : Book}
    (h : addBook now bd s = (s', Except.ok b)) :
    b = mkNewBook now bd s ∧
    s'.books = s.books ++ [(s.next_id, b)] ∧
    s'.next_id = s.next_id + 1 ∧ s'.limit = s.limit := by
  unfold addBook mkAddBook at h
  split_ifs at h <;>
    first
    | (injection h with ha hb
       injection hb with hb
       subst ha; subst hb
       exact ⟨rfl, rfl, rfl, rfl⟩)
    | (injection h with ha hb; simp at hb)

/-! ### Claim C5 -/

/-- C5 counterexample: in the JSON variant the book store's `update_limit`
does **not** clamp to 5 — requesting 10 stores 10, contradicting the claim
that the stored limit always lies in [1, 5] for both stores. -/
theorem C5_counterexample :
    (updateBookLimit 10 bsEmpty).1.limit = 10 ∧
    ¬ (updateBookLimit 10 bsEmpty).1.limit ≤ 5 := by decide

/-- C5 (amended): the game store clamps any requested integer into [1, 5]
(values above 5 become 5, below 1 become 1) and never rejects; the book store
rejects values below 1 with an error (not by clamping) and stores any value
≥ 1 exactly as requested, with no upper bound.  Neither touches the items or
the id counter. -/
theorem C5_limit_clamping_amended (n : Int) (sg : GameStore) (sb : BookStore) :
    (1 ≤ (updateGameLimit n sg).limit ∧ (updateGameLimit n sg).limit ≤ 5) ∧
    (5 < n → (updateGameLimit n sg).limit = 5) ∧
    (n < 1 → (updateGameLimit n sg).limit = 1) ∧
    (1 ≤ n → n ≤ 5 → (updateGameLimit n sg).limit = n.toNat) ∧
    (updateGameLimit n sg).games = sg.games ∧
    (updateGameLimit n sg).next_id = sg.next_id ∧
    (n < 1 → updateBookLimit n sb = (sb, Except.error StoreError.invalidLimit)) ∧
    (1 ≤ n → (updateBookLimit n sb).1.limit = n.toNat ∧
      (updateBookLimit n sb).2 = Except.ok () ∧
      (updateBookLimit n sb).1.books = sb.books ∧
      (updateBookLimit n sb).1.next_id = sb.next_id) := by
  unfold updateGameLimit updateBookLimit
  refine ⟨⟨?_, ?_⟩, ?_, ?_, ?_, rfl, rfl, ?_, ?_⟩ <;>
    (intros; split_ifs <;> simp_all <;> omega)

/-- C5 witness: requesting 7 for games stores 5; requesting 0 for books is
rejected unchanged. -/
theorem C5_witness :
    (updateGameLimit 7 gsFoo).limit = 5 ∧
    updateBookLimit 0 bsEmpty = (bsEmpty, Except.error StoreError.invalidLimit) := by
  obtain ⟨-, h5, -, -, -, -, -, -⟩ := C5_limit_clamping_amended 7 gsFoo bsEmpty
  obtain ⟨-, -, -, -, -, -, hb, -⟩ := C5_limit_clamping_amended 0 gsFoo bsEmpty
  exact ⟨h5 (by decide), hb (by decide)⟩

/-! ### Claim C10 -/

/-- C10: deleting a present id removes exactly that item and leaves the id
counter and limit unchanged; deleting an absent id fails NotFound as a no-op;
and because ids stay below `next_id` and deletion keeps `next_id`, an id once
deleted is never handed out by a later successful add. -/
theorem C10_delete_exact_no_reuse (s : GameStore) (gid : Nat) :
    (∀ g, findItem s.games gid = some g →
      (deleteGame gid s).2 = Except.ok true ∧
      (deleteGame gid s).1.next_id = s.next_id ∧
      (deleteGame gid s).1.limit = s.limit ∧
      findItem (deleteGame gid s).1.games gid = none ∧
      (∀ k, k ≠ gid → findItem (deleteGame gid s).1.games k = findItem s.games k)) ∧
    (findItem s.games gid = none →
      deleteGame gid s = (s, Except.error (StoreError.notFound gid))) ∧
    (WFg s → ∀ g, findItem s.games gid = some g →
      ∀ now gd s'' g'',
        addGame now gd ((deleteGame gid s).1) = (s'', Except.ok g'') →
        g''.id = s.next_id ∧ gid < s.next_id ∧ g''.id ≠ gid) := by
  refine ⟨?_, ?_, ?_⟩
  · intro g hg
    have hd : deleteGame gid s = ({ s with games := delItem s.games gid }, Except.ok true) := by
      unfold deleteGame
      rw [hg]
      rfl
    rw [hd]
    exact ⟨rfl, rfl, rfl, findItem_delItem_self,
      fun k hk => findItem_delItem_ne hk⟩
  · intro hg
    unfold deleteGame
    rw [hg]
    simp
  · intro hwf g hg now gd s'' g'' hadd
    obtain ⟨hgval, -, -, -⟩ := addGame_ok hadd
    have hdel : (deleteGame gid s).1.next_id = s.next_id := by
      unfold deleteGame
      rw [hg]
      rfl
    have hid : g''.id = s.next_id := by
      rw [hgval]
      simpa [mkNewGame] using hdel
    have hlt : gid < s.next_id := by
      obtain ⟨h1, h2⟩ := hwf.2 _ (findItem_mem hg)
      omega
    exact ⟨hid, hlt, by omega⟩

/-- C10 witness at a concrete store: delete id 2 succeeds, removes it, and a
later add receives a strictly larger id. -/
theorem C10_witness :
    (deleteGame 2 gsTwo).2 = Except.ok true ∧
    findItem (deleteGame 2 gsTwo).1.games 2 = none ∧
    2 < gsTwo.next_id := by
  obtain ⟨h1, -, h3⟩ := C10_delete_exact_no_reuse gsTwo 2
  obtain ⟨ha, -, -, hd, -⟩ := h1 (mkG 2 "B" GameStatus.paused) (by decide)
  have hid := h3 (by decide) (mkG 2 "B" GameStatus.paused) (by decide) 9
    { name := "C", status := GameStatus.planned } _ _
    (by decide :
      addGame 9 { name := "C", status := GameStatus.planned } ((deleteGame 2 gsTwo).1) =
        (⟨[(1, mkG 1 "A" GameStatus.active),
           (3, { id := 3, user_id := 1, name := "C", status := GameStatus.planned,
                 notes := "", rating := none, reason := "", created_at := 9,
                 ended_at := none })], 4, 1⟩,
         Except.ok { id := 3, user_id := 1, name := "C", status := GameStatus.planned,
                     notes := "", rating := none, reason := "", created_at := 9,
                     ended_at := none }))
  exact ⟨ha, hd, hid.2.1⟩

/-! ### Claim C9 -/

theorem dictToGame_gameToDict (g : Game) (hv : GameValid g) :
    dictToGame (gameToDict g) = some g := by
  unfold dictToGame gameToDict
  have hst : gameStatusOfStr (gameStatusStr g.status) = some g.status := by
    cases g.status <;> simp [gameStatusStr, gameStatusOfStr]
  rw [hst]
  have hv' : 1 ≤ g.name.length ∧ g.name.length ≤ 100 ∧ g.rating.getD 0 ≤ 10 := hv
  simp [hv'.1, hv'.2.1, hv'.2.2]

theorem loadGames_save (l : List (Nat × Game)) (hv : ∀ p ∈ l, GameValid p.2) :
    loadGames (l.map (fun p => (Nat.digits 10 p.1, gameToDict p.2))) = some l := by
  induction l with
  | nil => rfl
  | cons p t ih =>
    rw [List.map_cons]
    unfold loadGames
    rw [dictToGame_gameToDict p.2 (hv p (List.mem_cons_self _ _)),
      ih (fun q hq => hv q (List.mem_cons_of_mem _ hq)), Nat.ofDigits_digits]

/-- C9: serializing the whole store state to the persisted document and
loading it back restores every item field-for-field (ids, names, statuses,
notes, ratings, reasons, timestamps), along with `next_id` and `limit` —
timestamp string formatting being abstracted.  The only hypothesis is that
stored items satisfy the pydantic field constraints, which every item admitted
through the models does. -/
theorem C9_save_load_roundtrip (s : GameStore) (hv : ∀ p ∈ s.games, GameValid p.2) :
    loadData (saveData s) = s := by
  unfold loadData saveData
  rw [loadGames_save s.games hv]

/-- C9 witness: a concrete two-game store survives the round trip. -/
theorem C9_witness : loadData (saveData gsTwo) = gsTwo :=
  C9_save_load_roundtrip gsTwo (by decide)

/-! ### Claim C1 -/

/-- C1 counterexample: updating the paused game to FINISHED succeeds but
leaves `ended_at = none` — the game store only stamps `ended_at` when the
transition starts from ACTIVE, contrary to the claim that any non-terminal →
terminal transition sets it. -/
theorem C1_counterexample :
    (updateGame 5 1 { status := some GameStatus.finished } gsPaused).2 =
      Except.ok (mkG 1 "Alpha" GameStatus.finished) ∧
    (mkG 1 "Alpha" GameStatus.finished).status = GameStatus.finished ∧
    (mkG 1 "Alpha" GameStatus.finished).ended_at ≠ some 5 := by decide

/-- C1 (amended): on a successful update into a terminal status, the book
store stamps `ended_at = now` from any non-terminal status, but the game
store does so only when the previous status is ACTIVE and otherwise leaves
`ended_at` unchanged. -/
theorem C1_terminal_sets_ended_amended :
    (∀ now gid u (s s' : GameStore) (g' g0 : Game) ns,
      updateGame now gid u s = (s', Except.ok g') →
      findItem s.games gid = some g0 →
      u.status = some ns → gameTerminal ns →
      ((g0.status = GameStatus.active → g'.ended_at = some now) ∧
       (g0.status ≠ GameStatus.active → g'.ended_at = g0.ended_at))) ∧
    (∀ now bid u (s s' : BookStore) (b' b0 : Book) ns,
      updateBook now bid u s = (s', Except.ok b') →
      findItem s.books bid = some b0 →
      u.status = some ns → bookTerminal ns → ¬ bookTerminal b0.status →
      b'.ended_at = some now) := by
  constructor
  · intro now gid u s s' g' g0 ns hup hfind hst hterm
    obtain ⟨g0', hfind', hval, -, -, -⟩ := updateGame_ok hup
    rw [hfind] at hfind'
    injection hfind' with he
    subst he
    have hns : ¬ (ns = GameStatus.active ∨ ns = GameStatus.paused ∨
        ns = GameStatus.casual ∨ ns = GameStatus.planned) := by
      rcases hterm with rfl | rfl <;> decide
    rw [hval]
    simp only [gameUpdateApply_ended, hst, if_neg hns]
    constructor
    · intro ha; rw [if_pos ha]
    · intro ha; rw [if_neg ha]
  · intro now bid u s s' b' b0 ns hup hfind hst hterm hnterm
    obtain ⟨b0', hfind', hval, -, -, -⟩ := updateBook_ok hup
    rw [hfind] at hfind'
    injection hfind' with he
    subst he
    rw [hval]
    simp only [bookUpdateApply_ended, hst]
    rw [if_pos ⟨hterm, hnterm⟩]

/-- C1 witness: dropping the active game "Foo" stamps `ended_at = 4`;
finishing the paused book "Alpha" stamps `ended_at = 6`. -/
theorem C1_witness :
    (mkG 1 "Foo" GameStatus.dropped (some 4)).ended_at = some 4 ∧
    (mkB 1 "Alpha" BookStatus.finished (some 6)).ended_at = some 6 := by
  obtain ⟨hg, hb⟩ := C1_terminal_sets_ended_amended
  refine ⟨?_, ?_⟩
  · exact (hg 4 1 { status := some GameStatus.dropped } gsFoo
      ⟨[(1, mkG 1 "Foo" GameStatus.dropped (some 4))], 2, 5⟩
      (mkG 1 "Foo" GameStatus.dropped (some 4)) (mkG 1 "Foo" GameStatus.active)
      GameStatus.dropped (by decide) (by decide) rfl (by decide)).1 (by decide)
  · exact hb 6 1 { status := some BookStatus.finished } bsPaused
      ⟨[(1, mkB 1 "Alpha" BookStatus.finished (some 6))], 2, 3⟩
      (mkB 1 "Alpha" BookStatus.finished (some 6)) (mkB 1 "Alpha" BookStatus.paused)
      BookStatus.finished (by decide) (by decide) rfl (by decide) (by decide)

/-! ### Claim C2 -/

/-- C2 counterexample: updating game 2 («B», paused) with a new name "C" and
status ACTIVE fails with LimitExceeded (limit 1 already held by game 1), yet
the stored name of game 2 has already been changed to "C" — a failing update
does mutate the collection. -/
theorem C2_counterexample :
    updateGame 7 2 { name := some "C", status := some GameStatus.active } gsTwo =
      (⟨[(1, mkG 1 "A" GameStatus.active), (2, mkG 2 "C" GameStatus.paused)], 3, 1⟩,
        Except.error (StoreError.limitExceeded 1)) ∧
    findItem gsTwo.games 2 = some (mkG 2 "B" GameStatus.paused) ∧
    (mkG 2 "C" GameStatus.paused).name ≠ (mkG 2 "B" GameStatus.paused).name := by decide

/-- C2 (amended): failing adds and a failing book set-limit leave the store
exactly as it was, and a failing game update that provided no name is a
no-op; but a failing update that provided fields may leave them applied (the
game store applies a provided name before the status checks; the book store
applies every provided field before any check). -/
theorem C2_failure_no_mutation_amended :
    (∀ now gd (s : GameStore) e,
      (addGame now gd s).2 = Except.error e → (addGame now gd s).1 = s) ∧
    (∀ now bd (s : BookStore) e,
      (addBook now bd s).2 = Except.error e → (addBook now bd s).1 = s) ∧
    (∀ now gid u (s : GameStore) e, u.name = none →
      (updateGame now gid u s).2 = Except.error e → (updateGame now gid u s).1 = s) ∧
    (∀ n (s : BookStore) e,
      (updateBookLimit n s).2 = Except.error e → (updateBookLimit n s).1 = s) := by
  refine ⟨?_, ?_, ?_, ?_⟩
  · intro now gd s e h
    unfold addGame mkAddGame at h ⊢
    split_ifs at h ⊢ <;> simp_all
  · intro now bd s e h
    unfold addBook mkAddBook at h ⊢
    split_ifs at h ⊢ <;> simp_all
  · intro now gid u s e hn h
    unfold updateGame at h ⊢
    cases hfind : findItem s.games gid with
    | none => rfl
    | some g0 =>
      rw [hfind] at h
      simp only [hn] at h ⊢
      cases hs : u.status with
      | none => simp only [hs, finishGameUpdate_eq] at h ⊢; simp at h
      | some ns =>
        simp only [hs] at h ⊢
        unfold gameStatusChange at h ⊢
        simp only [hn] at h ⊢
        split_ifs at h ⊢ <;>
          first
          | rfl
          | simp [finishGameUpdate_eq] at h
  · intro n s e h
    unfold updateBookLimit at h ⊢
    split_ifs at h ⊢ <;> simp_all

/-- C2 witness: four concrete failures, each leaving its store unchanged. -/
theorem C2_witness :
    (addGame 3 { name := "Bar", status := GameStatus.active } gsFooFull).1 = gsFooFull ∧
    (addBook 2 { title := "foo " } bsFoo).1 = bsFoo ∧
    (updateGame 7 2 { status := some GameStatus.active } gsTwo).1 = gsTwo ∧
    (updateBookLimit 0 bsEmpty).1 = bsEmpty := by
  obtain ⟨h1, h2, h3, h4⟩ := C2_failure_no_mutation_amended
  exact ⟨h1 3 _ gsFooFull (StoreError.limitExceeded 1) (by decide),
    h2 2 _ bsFoo (StoreError.duplicateName "foo ") (by decide),
    h3 7 2 _ gsTwo (StoreError.limitExceeded 1) rfl (by decide),
    h4 0 bsEmpty StoreError.invalidLimit (by decide)⟩

/-! ### Claim C7 -/

/-- C7 counterexample: a book update with title `" X "` succeeds and stores
the title verbatim, untrimmed — the claim that a provided title is trimmed
before storage fails for the book store. -/
theorem C7_counterexample :
    (updateBook 3 1 { title := some " X " } bsReading).2 =
      Except.ok (mkB 1 " X " BookStatus.reading) ∧
    (mkB 1 " X " BookStatus.reading).title ≠ pyStrip " X " := by decide

/-- C7 (amended): on a successful update, the game store trims a provided
name and applies notes/rating/reason verbatim; the book store applies *every*
provided field verbatim, including the title (no trimming); unprovided
update-schema fields keep their previous values, and `created_at` and `id`
are never touched. -/
theorem C7_update_verbatim_amended :
    (∀ now gid u (s s' : GameStore) (g' g0 : Game),
      updateGame now gid u s = (s', Except.ok g') →
      findItem s.games gid = some g0 →
      g'.name = (match u.name with | some n => pyStrip n | none => g0.name) ∧
      g'.notes = u.notes.getD g0.notes ∧
      g'.reason = u.reason.getD g0.reason ∧
      g'.rating = (match u.rating with | some v => some v | none => g0.rating) ∧
      g'.status = u.status.getD g0.status ∧
      g'.created_at = g0.created_at ∧ g'.id = g0.id) ∧
    (∀ now bid u (s s' : BookStore) (b' b0 : Book),
      updateBook now bid u s = (s', Except.ok b') →
      findItem s.books bid = some b0 →
      b'.title = u.title.getD b0.title ∧
      b'.author = u.author.getD b0.author ∧
      b'.notes = u.notes.getD b0.notes ∧
      b'.reason = u.reason.getD b0.reason ∧
      b'.progress = u.progress.getD b0.progress ∧
      b'.rating = (match u.rating with | some v => some v | none => b0.rating) ∧
      b'.status = u.status.getD b0.status ∧
      b'.created_at = b0.created_at ∧ b'.id = b0.id) := by
  constructor
  · intro now gid u s s' g' g0 hup hfind
    obtain ⟨g0', hfind', hval, -, -, -⟩ := updateGame_ok hup
    rw [hfind] at hfind'
    injection hfind' with he
    subst he
    subst hval
    exact ⟨gameUpdateApply_name now u g0, gameUpdateApply_notes now u g0,
      gameUpdateApply_reason now u g0, gameUpdateApply_rating now u g0,
      gameUpdateApply_status now u g0, gameUpdateApply_created now u g0,
      gameUpdateApply_id now u g0⟩
  · intro now bid u s s' b' b0 hup hfind
    obtain ⟨b0', hfind', hval, -, -, -⟩ := updateBook_ok hup
    rw [hfind] at hfind'
    injection hfind' with he
    subst he
    subst hval
    exact ⟨bookUpdateApply_title now u b0, bookUpdateApply_author now u b0,
      bookUpdateApply_notes now u b0, bookUpdateApply_reason now u b0,
      bookUpdateApply_progress now u b0, bookUpdateApply_rating now u b0,
      bookUpdateApply_status now u b0, bookUpdateApply_created now u b0,
      bookUpdateApply_id now u b0⟩

/-- C7 witness: a concrete game update trims the provided name, keeps the
unprovided reason; a concrete book update stores title and author verbatim. -/
theorem C7_witness :
    ({ id := 1, user_id := 1, name := "Bar", status := GameStatus.paused,
       notes := "n", rating := some 7, reason := "", created_at := 0,
       ended_at := none } : Game).name = pyStrip " Bar " ∧
    ({ id := 1, user_id := 1, title := " T ", author := " A2 ",
       status := BookStatus.reading, notes := "", rating := none, reason := "",
       progress := "p", created_at := 0, ended_at := none } : Book).title =
      (some " T ").getD "Alpha" := by
  obtain ⟨hg, hb⟩ := C7_update_verbatim_amended
  constructor
  · have := (hg 9 1
      { name := some " Bar "
        status := some GameStatus.paused
        notes := some "n"
        rating := some 7 } gsFoo
      ⟨[(1, { id := 1, user_id := 1, name := "Bar", status := GameStatus.paused,
              notes := "n", rating := some 7, reason := "", created_at := 0,
              ended_at := none })], 2, 5⟩
      { id := 1, user_id := 1, name := "Bar", status := GameStatus.paused,
        notes := "n", rating := some 7, reason := "", created_at := 0,
        ended_at := none }
      (mkG 1 "Foo" GameStatus.active) (by decide) (by decide)).1
    simpa using this
  · have := (hb 9 1
      { title := some " T "
        author := some " A2 "
        progress := some "p" } bsReading
      ⟨[(1, { id := 1, user_id := 1, title := " T ", author := " A2 ",
              status := BookStatus.reading, notes := "", rating := none,
              reason := "", progress := "p", created_at := 0,
              ended_at := none })], 2, 3⟩
      { id := 1, user_id := 1, title := " T ", author := " A2 ",
        status := BookStatus.reading, notes := "", rating := none, reason := "",
        progress := "p", created_at := 0, ended_at := none }
      (mkB 1 "Alpha" BookStatus.reading) (by decide) (by decide)).1
    simpa using this

/-! ### Claim C6 -/

/-- C6 counterexample: with the limit already reached, adding a duplicate
"foo " of the active game "Foo" fails with LimitExceeded, not DuplicateName —
the limit check runs first, so a duplicate-title add does not always fail
with DuplicateName. -/
theorem C6_counterexample :
    findItem gsFooFull.games 1 = some (mkG 1 "Foo" GameStatus.active) ∧
    (mkG 1 "Foo" GameStatus.active).status = GameStatus.active ∧
    pyLower (mkG 1 "Foo" GameStatus.active).name = pyLower (pyStrip "foo ") ∧
    addGame 7 { name := "foo ", status := GameStatus.active } gsFooFull =
      (gsFooFull, Except.error (StoreError.limitExceeded 1)) ∧
    StoreError.limitExceeded 1 ≠ StoreError.duplicateName (pyStrip "foo ") := by
  decide

/-- C6 (amended): an add into the limited status whose trimmed lowercased
title collides with an existing limited-status item fails with DuplicateName
*provided the limited-status count is still below the limit* (otherwise
LimitExceeded wins); an add into any non-limited status is never rejected for
a duplicate title and never rejected by the limit — its only possible failure
is the pydantic ValidationError raised when the trimmed title violates the
model constraints (e.g. a schema-valid whitespace-only title strips to
empty), and with constraint-respecting fields it succeeds. -/
theorem C6_duplicate_add_amended :
    (∀ now gd (s : GameStore) k g,
      gd.status = GameStatus.active →
      activeLen s < s.limit →
      (k, g) ∈ s.games → g.status = GameStatus.active →
      pyLower g.name = pyLower (pyStrip gd.name) →
      addGame now gd s = (s, Except.error (StoreError.duplicateName (pyStrip gd.name)))) ∧
    (∀ now gd (s : GameStore), gd.status ≠ GameStatus.active →
      (∀ e, (addGame now gd s).2 = Except.error e → e = StoreError.validationError) ∧
      (GameValid (mkNewGame now gd s) →
        (addGame now gd s).2 = Except.ok (mkNewGame now gd s))) ∧
    (∀ now bd (s : BookStore) k b,
      bd.status = BookStatus.reading →
      readingLen s < s.limit →
      (k, b) ∈ s.books → b.status = BookStatus.reading →
      pyLower (pyStrip b.title) = pyLower (pyStrip bd.title) →
      addBook now bd s = (s, Except.error (StoreError.duplicateName bd.title))) ∧
    (∀ now bd (s : BookStore), bd.status ≠ BookStatus.reading →
      (∀ e, (addBook now bd s).2 = Except.error e → e = StoreError.validationError) ∧
      (BookValid (mkNewBook now bd s) →
        (addBook now bd s).2 = Except.ok (mkNewBook now bd s))) := by
  refine ⟨?_, ?_, ?_, ?_⟩
  · intro now gd s k g hstatus hlim hm hgst hname
    have hdup : isDuplicateActiveName s.games (pyStrip gd.name) none = true := by
      unfold isDuplicateActiveName
      apply List.any_eq_true.mpr
      refine ⟨(k, g), List.mem_filter.mpr ⟨hm, ?_⟩, ?_⟩
      · simp [hgst]
      · simp [hname]
    unfold addGame
    rw [if_pos hstatus, if_neg (not_le.mpr hlim), if_pos hdup]
  · intro now gd s hstatus
    constructor
    · intro e he
      unfold addGame mkAddGame at he
      rw [if_neg hstatus] at he
      split_ifs at he with hval
      injection he with he
      exact he.symm
    · intro hval
      unfold addGame mkAddGame
      rw [if_neg hstatus, if_pos hval]
  · intro now bd s k b hstatus hlim hm hbst hname
    have hdup : (s.books.any fun p => decide (p.2.status = BookStatus.reading ∧
        pyLower (pyStrip p.2.title) = pyLower (pyStrip bd.title))) = true :=
      List.any_eq_true.mpr ⟨(k, b), hm, by simp [hbst, hname]⟩
    unfold addBook
    rw [if_pos hstatus, if_neg (not_le.mpr hlim), if_pos hdup]
  · intro now bd s hstatus
    constructor
    · intro e he
      unfold addBook mkAddBook at he
      rw [if_neg hstatus] at he
      split_ifs at he with hval
      injection he with he
      exact he.symm
    · intro hval
      unfold addBook mkAddBook
      rw [if_neg hstatus, if_pos hval]

/-- C6 witness: a duplicate add below the limit fails DuplicateName in both
stores; a non-limited-status add with a constraint-respecting title succeeds
in both; and the only failure of a non-limited add — a whitespace-only title
— is the construction ValidationError, not a limit or duplicate rejection. -/
theorem C6_witness :
    addGame 7 { name := "foo ", status := GameStatus.active } gsFoo =
      (gsFoo, Except.error (StoreError.duplicateName (pyStrip "foo "))) ∧
    (addGame 7 { name := "X", status := GameStatus.planned } gsFoo).2 =
      Except.ok (mkNewGame 7 { name := "X", status := GameStatus.planned } gsFoo) ∧
    addBook 7 { title := " FOO " } bsFoo =
      (bsFoo, Except.error (StoreError.duplicateName " FOO ")) ∧
    (addBook 7 { title := "Y", status := BookStatus.paused } bsFoo).2 =
      Except.ok (mkNewBook 7 { title := "Y", status := BookStatus.paused } bsFoo) ∧
    (addGame 7 { name := " ", status := GameStatus.planned } gsFoo).2 =
      Except.error StoreError.validationError ∧
    StoreError.validationError = StoreError.validationError := by
  obtain ⟨h1, h2, h3, h4⟩ := C6_duplicate_add_amended
  refine ⟨h1 7 _ gsFoo 1 (mkG 1 "Foo" GameStatus.active) rfl (by decide) (by decide)
      (by decide) (by decide),
    (h2 7 _ gsFoo (by decide)).2 (by decide),
    h3 7 _ bsFoo 1 (mkB 1 "Foo" BookStatus.reading) rfl (by decide) (by decide)
      (by decide) (by decide),
    (h4 7 _ bsFoo (by decide)).2 (by decide),
    by decide,
    (h2 7 { name := " ", status := GameStatus.planned } gsFoo (by decide)).1
      StoreError.validationError (by decide)⟩

/-! ### Claim C8 -/

theorem findItem_of_pairwise_mem {α : Type} {l : List (Nat × α)} {k : Nat} {v : α}
    (hp : l.Pairwise fun a b => a.1 ≠ b.1) (hm : (k, v) ∈ l) :
    findItem l k = some v := by
  induction l with
  | nil => cases hm
  | cons q t ih =>
    obtain ⟨hq1, hq2⟩ := List.pairwise_cons.1 hp
    rcases List.mem_cons.1 hm with heq | hmt
    · have hq1k : q.1 = k := by rw [← heq]
      rw [findItem, if_pos hq1k, ← heq]
    · have hqk : q.1 ≠ k := hq1 (k, v) hmt
      rw [findItem, if_neg hqk]
      exact ih hq2 hmt

theorem hasReadingDup_setItem {l : List (Nat × Book)} {bid : Nat} {v : Book} {t : String}
    (hk : ∀ p ∈ l, p.1 = p.2.id) (hv : v.id = bid) :
    hasReadingDup (setItem l bid v) bid t = hasReadingDup l bid t := by
  induction l with
  | nil => rfl
  | cons q l ih =>
    have hq := hk q (List.mem_cons_self _ _)
    have hrest : ∀ p ∈ l, p.1 = p.2.id := fun p hp => hk p (List.mem_cons_of_mem _ hp)
    have ih' := ih hrest
    unfold hasReadingDup setItem at ih' ⊢
    by_cases h1 : q.1 = bid
    · have hq2 : q.2.id = bid := by rw [← hq]; exact h1
      rw [List.map_cons, if_pos h1, List.any_cons, List.any_cons]
      simpa [hv, hq2] using ih'
    · rw [List.map_cons, if_neg h1, List.any_cons, List.any_cons, ih']

/-- C8: an update that moves an item into the limited status from another
status checks the limit against the *other* items only (the updated item is
excluded from the count), and — when no new title is provided — re-runs the
case-insensitive collision check against the other limited-status items,
failing LimitExceeded resp. DuplicateName on violation. -/
theorem C8_limited_entry_checks :
    (∀ now gid u (s : GameStore) g0,
      WFg s →
      findItem s.games gid = some g0 →
      u.status = some GameStatus.active → g0.status ≠ GameStatus.active →
      u.name = none →
      (((s.games.filter (fun p => decide (p.2.status = GameStatus.active ∧
          p.2.id ≠ gid))).length ≥ s.limit →
         updateGame now gid u s = (s, Except.error (StoreError.limitExceeded s.limit))) ∧
       ((s.games.filter (fun p => decide (p.2.status = GameStatus.active ∧
          p.2.id ≠ gid))).length < s.limit →
        isDuplicateActiveName s.games g0.name (some gid) = true →
        updateGame now gid u s = (s, Except.error (StoreError.duplicateName g0.name))))) ∧
    (∀ now bid u (s : BookStore) b0,
      WFb s →
      findItem s.books bid = some b0 →
      u.status = some BookStatus.reading → b0.status ≠ BookStatus.reading →
      u.title = none →
      (((s.books.filter (fun p => decide (p.2.status = BookStatus.reading ∧
          p.2.id ≠ bid))).length ≥ s.limit →
         (updateBook now bid u s).2 = Except.error (StoreError.limitExceeded s.limit)) ∧
       ((s.books.filter (fun p => decide (p.2.status = BookStatus.reading ∧
          p.2.id ≠ bid))).length < s.limit →
        hasReadingDup s.books bid b0.title = true →
        (updateBook now bid u s).2 = Except.error (StoreError.duplicateName b0.title)))) := by
  constructor
  · intro now gid u s g0 hwf hfind hst hcur hn
    have hgid : gid = g0.id := (hwf.2 _ (findItem_mem hfind)).1
    have hbridge : (s.games.filter (fun p => decide (p.2.status = GameStatus.active ∧
        p.2.id ≠ gid))).length = activeLen s := by
      unfold activeLen
      congr 1
      apply List.filter_congr
      intro p hp
      by_cases hac : p.2.status = GameStatus.active
      · have hpid : p.2.id ≠ gid := by
          intro hpe
          have hk : p.1 = p.2.id := (hwf.2 p hp).1
          have hpg : p = (gid, p.2) := by
            have : p.1 = gid := by rw [hk, hpe]
            exact Prod.ext this rfl
          have heq2 := findItem_of_pairwise_mem hwf.1 (hpg ▸ hp)
          rw [hfind] at heq2
          injection heq2 with heq2
          rw [← heq2] at hac
          exact hcur hac
        simp [hac, hpid]
      · simp [hac]
    have hrw : updateGame now gid u s =
        gameStatusChange now gid u s g0 g0.status GameStatus.active := by
      unfold updateGame
      rw [hfind]
      simp only [hn, hst]
    constructor
    · intro hge
      rw [hbridge] at hge
      rw [hrw]
      unfold gameStatusChange
      rw [if_pos rfl, if_pos hcur, if_pos hge]
    · intro hlt hdup
      rw [hbridge] at hlt
      rw [hgid] at hdup
      rw [hrw]
      unfold gameStatusChange
      rw [if_pos rfl, if_pos hcur, if_neg (not_le.mpr hlt)]
      simp only [hn]
      rw [if_pos hdup]
  · intro now bid u s b0 hwf hfind hst hcur htitle
    have hbid : bid = b0.id := (hwf.2 _ (findItem_mem hfind)).1
    have hb1id : (applyBookUpdate b0 u).id = b0.id := (applyBookUpdate_proj u b0).2.2.2.2.2.2.2.1
    have hb1t : (applyBookUpdate b0 u).title = b0.title := by
      rw [(applyBookUpdate_proj u b0).1, htitle]
      rfl
    have hcount : ((setItem s.books bid (applyBookUpdate b0 u)).filter
        (fun p => decide (p.2.status = BookStatus.reading ∧ p.2.id ≠ bid))).length =
        (s.books.filter (fun p => decide (p.2.status = BookStatus.reading ∧
          p.2.id ≠ bid))).length := by
      rw [← List.countP_eq_length_filter, ← List.countP_eq_length_filter]
      have := countP_setItem (v := applyBookUpdate b0 u) hwf.1 (findItem_mem hfind)
        (fun p => decide (p.2.status = BookStatus.reading ∧ p.2.id ≠ bid))
      have hz0 : (decide (b0.status = BookStatus.reading ∧ b0.id ≠ bid)) = false := by
        simp [hbid]
      have hz1 : (decide ((applyBookUpdate b0 u).status = BookStatus.reading ∧
          (applyBookUpdate b0 u).id ≠ bid)) = false := by
        simp [hb1id, hbid]
      simp only [hz0, hz1] at this
      omega
    have hdup_eq : hasReadingDup (setItem s.books bid (applyBookUpdate b0 u)) bid
        (applyBookUpdate b0 u).title = hasReadingDup s.books bid b0.title := by
      rw [hb1t]
      exact hasReadingDup_setItem (fun p hp => (hwf.2 p hp).1) (by rw [hb1id, hbid])
    have hrw : updateBook now bid u s =
        (if BookStatus.reading = BookStatus.reading ∧ b0.status ≠ BookStatus.reading then
          (if ((setItem s.books bid (applyBookUpdate b0 u)).filter
              (fun p => decide (p.2.status = BookStatus.reading ∧ p.2.id ≠ bid))).length ≥
              s.limit then
            (⟨setItem s.books bid (applyBookUpdate b0 u), s.next_id, s.limit⟩,
              Except.error (StoreError.limitExceeded s.limit))
          else if u.title = none ∧ hasReadingDup (setItem s.books bid (applyBookUpdate b0 u))
              bid (applyBookUpdate b0 u).title then
            (⟨setItem s.books bid (applyBookUpdate b0 u), s.next_id, s.limit⟩,
              Except.error (StoreError.duplicateName (applyBookUpdate b0 u).title))
          else
            finishBookUpdate bid u
              ⟨setItem (setItem s.books bid (applyBookUpdate b0 u)) bid
                  (adjustBookEnded now b0.status (applyBookUpdate b0 u)),
                s.next_id, s.limit⟩
              (adjustBookEnded now b0.status (applyBookUpdate b0 u)))
        else
          finishBookUpdate bid u
            ⟨setItem (setItem s.books bid (applyBookUpdate b0 u)) bid
                (adjustBookEnded now b0.status (applyBookUpdate b0 u)),
              s.next_id, s.limit⟩
            (adjustBookEnded now b0.status (applyBookUpdate b0 u))) := by
      unfold updateBook
      rw [hfind]
      simp only [hst]
    constructor
    · intro hge
      rw [hrw, if_pos ⟨rfl, hcur⟩, if_pos (by rw [hcount]; exact hge)]
    · intro hlt hdup
      rw [hrw, if_pos ⟨rfl, hcur⟩, if_neg (by rw [hcount]; exact not_le.mpr hlt),
        if_pos ⟨htitle, by rw [hdup_eq]; exact hdup⟩]
      simp [hb1t]

/-- C8 witness: moving the paused game 2 («B») to ACTIVE with the single slot
taken fails LimitExceeded; renaming left aside, moving a paused book whose
title collides with a reading one fails DuplicateName. -/
theorem C8_witness :
    updateGame 7 2 { status := some GameStatus.active } gsTwo =
      (gsTwo, Except.error (StoreError.limitExceeded 1)) ∧
    (updateBook 7 2 { status := some BookStatus.reading } bsDupPair).2 =
      Except.error (StoreError.duplicateName "FOO ") := by
  obtain ⟨hg, hb⟩ := C8_limited_entry_checks
  constructor
  · exact (hg 7 2 { status := some GameStatus.active } gsTwo
      (mkG 2 "B" GameStatus.paused) (by decide) (by decide) rfl (by decide) rfl).1
      (by decide)
  · exact (hb 7 2 { status := some BookStatus.reading } bsDupPair
      (mkB 2 "FOO " BookStatus.paused) (by decide) (by decide) rfl (by decide) rfl).2
      (by decide) (by decide)

/-! ### Claim C3 -/

theorem activeLen_countP (s : GameStore) :
    activeLen s = s.games.countP (fun p => decide (p.2.status = GameStatus.active)) := by
  unfold activeLen
  exact (List.countP_eq_length_filter _ _).symm

theorem readingLen_countP (s : BookStore) :
    readingLen s = s.books.countP (fun p => decide (p.2.status = BookStatus.reading)) := by
  unfold readingLen
  exact (List.countP_eq_length_filter _ _).symm

theorem countP_setItem_same {α : Type} {l : List (Nat × α)} {k : Nat} {v w : α}
    (hp : l.Pairwise fun a b => a.1 ≠ b.1) (hm : (k, w) ∈ l)
    (f : Nat × α → Bool) (hf : f (k, w) = f (k, v)) :
    (setItem l k v).countP f = l.countP f := by
  have h := countP_setItem (v := v) hp hm f
  rw [hf] at h
  omega

theorem mem_setItem_self {α : Type} {l : List (Nat × α)} {k : Nat} {w : α} (v : α)
    (hm : (k, w) ∈ l) : (k, v) ∈ setItem l k v := by
  unfold setItem
  exact List.mem_map.2 ⟨(k, w), hm, by simp⟩

theorem countP_append_single {α : Type} (l : List α) (x : α) (f : α → Bool) :
    (l ++ [x]).countP f = l.countP f + (if f x then 1 else 0) := by
  rw [List.countP_append, List.countP_cons]
  simp

/-- Replacing the entry of a key by a book with the same id does not change
the count of *other* READING books. -/
theorem bookCountExcl_setItem {s : BookStore} {bid : Nat} {b0 v : Book}
    (hwf : WFb s) (hmem : (bid, b0) ∈ s.books) (hvid : v.id = b0.id)
    (hbid : bid = b0.id) :
    ((setItem s.books bid v).filter (fun p => decide (p.2.status = BookStatus.reading ∧
      p.2.id ≠ bid))).length =
    (s.books.filter (fun p => decide (p.2.status = BookStatus.reading ∧
      p.2.id ≠ bid))).length := by
  rw [← List.countP_eq_length_filter, ← List.countP_eq_length_filter]
  have h := countP_setItem (v := v) hwf.1 hmem
    (fun p => decide (p.2.status = BookStatus.reading ∧ p.2.id ≠ bid))
  have hz0 : decide (b0.status = BookStatus.reading ∧ b0.id ≠ bid) = false := by
    simp [hbid]
  have hz1 : decide (v.status = BookStatus.reading ∧ v.id ≠ bid) = false := by
    simp [hvid, hbid]
  simp only [hz0, hz1] at h
  omega

/-- When the updated book itself is not READING, the count of other READING
books equals the full READING count. -/
theorem bookCountExcl_eq_readingLen {s : BookStore} {bid : Nat} {b0 : Book}
    (hwf : WFb s) (hfind : findItem s.books bid = some b0)
    (hcur : b0.status ≠ BookStatus.reading) :
    (s.books.filter (fun p => decide (p.2.status = BookStatus.reading ∧
      p.2.id ≠ bid))).length = readingLen s := by
  unfold readingLen
  congr 1
  apply List.filter_congr
  intro p hp
  by_cases hac : p.2.status = BookStatus.reading
  · have hpid : p.2.id ≠ bid := by
      intro hpe
      have hk : p.1 = p.2.id := (hwf.2 p hp).1
      have hpg : p = (bid, p.2) := Prod.ext (by rw [hk, hpe]) rfl
      have heq2 := findItem_of_pairwise_mem hwf.1 (hpg ▸ hp)
      rw [hfind] at heq2
      injection heq2 with heq2
      rw [← heq2] at hac
      exact hcur hac
    simp [hac, hpid]
  · simp [hac]

/-- Common counting argument: writing `v` over the entry `(k, game)` keeps
`count(active) ≤ lim` provided that when `v` is active, either the overwritten
game already was, or there was room. -/
theorem count_le_after_set {l : List (Nat × Game)} {k : Nat} {game v : Game} {lim : Nat}
    (hpw : l.Pairwise fun a b => a.1 ≠ b.1) (hm : (k, game) ∈ l)
    (hle : l.countP (fun p => decide (p.2.status = GameStatus.active)) ≤ lim)
    (hcase : v.status = GameStatus.active →
      game.status = GameStatus.active ∨
        l.countP (fun p => decide (p.2.status = GameStatus.active)) < lim) :
    (setItem l k v).countP (fun p => decide (p.2.status = GameStatus.active)) ≤ lim := by
  have hcnt := countP_setItem (v := v) hpw hm
    (fun p => decide (p.2.status = GameStatus.active))
  by_cases hv : v.status = GameStatus.active
  · by_cases hgs : game.status = GameStatus.active
    · simp [hv, hgs] at hcnt
      omega
    · simp [hv, hgs] at hcnt
      rcases hcase hv with hg | hlt
      · exact absurd hg hgs
      · omega
  · simp [hv] at hcnt
    by_cases hgs : game.status = GameStatus.active <;> simp [hgs] at hcnt <;> omega

/-- The status-change step of `update_game` preserves `count(active) ≤ limit`:
entering ACTIVE passes the limit check first, and any other new status cannot
increase the count. -/
theorem gameStatusChange_count {now gid : Nat} {u : GameUpdate} {s s' : GameStore}
    {game g : Game} {ns : GameStatus}
    (hpw : s.games.Pairwise fun a b => a.1 ≠ b.1)
    (hmem : (gid, game) ∈ s.games)
    (hle : activeLen s ≤ s.limit)
    (h : gameStatusChange now gid u s game game.status ns = (s', Except.ok g)) :
    activeLen s' ≤ s'.limit := by
  have hfin : ∀ g2 : Game,
      finishGameUpdate gid u ⟨setItem s.games gid g2, s.next_id, s.limit⟩ g2 =
        (s', Except.ok g) →
      s'.games = setItem s.games gid (applyGameFields u g2) ∧ s'.limit = s.limit := by
    intro g2 hf
    rw [finishGameUpdate_eq] at hf
    injection hf with ha hb
    subst ha
    exact ⟨setItem_setItem s.games gid g2 (applyGameFields u g2), rfl⟩
  rw [activeLen_countP] at hle
  unfold gameStatusChange at h
  cases hn : u.name with
  | none =>
    simp only [hn] at h
    split_ifs at h with h1 h2 h3 h4
    · injection h with ha hb; simp at hb
    · injection h with ha hb; simp at hb
    · obtain ⟨hg, hl⟩ := hfin _ h
      rw [activeLen_countP, hg, hl]
      apply count_le_after_set hpw hmem hle
      intro hv
      refine Or.inr ?_
      rw [activeLen_countP] at h3
      omega
    · obtain ⟨hg, hl⟩ := hfin _ h
      rw [activeLen_countP, hg, hl]
      apply count_le_after_set hpw hmem hle
      intro hv
      exact Or.inl (not_not.mp h2)
    · obtain ⟨hg, hl⟩ := hfin _ h
      rw [activeLen_countP, hg, hl]
      apply count_le_after_set hpw hmem hle
      intro hv
      rw [(applyGameFields_proj u _).2.1] at hv
      exact absurd hv h1
    · obtain ⟨hg, hl⟩ := hfin _ h
      rw [activeLen_countP, hg, hl]
      apply count_le_after_set hpw hmem hle
      intro hv
      rw [(applyGameFields_proj u _).2.1] at hv
      exact absurd hv h1
    · obtain ⟨hg, hl⟩ := hfin _ h
      rw [activeLen_countP, hg, hl]
      apply count_le_after_set hpw hmem hle
      intro hv
      rw [(applyGameFields_proj u _).2.1] at hv
      exact absurd hv h1
  | some n =>
    simp only [hn] at h
    split_ifs at h with h1 h2 h3 h4
    · injection h with ha hb; simp at hb
    · injection h with ha hb; simp at hb
    · obtain ⟨hg, hl⟩ := hfin _ h
      rw [activeLen_countP, hg, hl]
      apply count_le_after_set hpw hmem hle
      intro hv
      refine Or.inr ?_
      rw [activeLen_countP] at h3
      omega
    · obtain ⟨hg, hl⟩ := hfin _ h
      rw [activeLen_countP, hg, hl]
      apply count_le_after_set hpw hmem hle
      intro hv
      exact Or.inl (not_not.mp h2)
    · obtain ⟨hg, hl⟩ := hfin _ h
      rw [activeLen_countP, hg, hl]
      apply count_le_after_set hpw hmem hle
      intro hv
      rw [(applyGameFields_proj u _).2.1] at hv
      exact absurd hv h1
    · obtain ⟨hg, hl⟩ := hfin _ h
      rw [activeLen_countP, hg, hl]
      apply count_le_after_set hpw hmem hle
      intro hv
      rw [(applyGameFields_proj u _).2.1] at hv
      exact absurd hv h1
    · obtain ⟨hg, hl⟩ := hfin _ h
      rw [activeLen_countP, hg, hl]
      apply count_le_after_set hpw hmem hle
      intro hv
      rw [(applyGameFields_proj u _).2.1] at hv
      exact absurd hv h1

/-- Book-store analog of `count_le_after_set`. -/
theorem count_le_after_set_book {l : List (Nat × Book)} {k : Nat} {book v : Book} {lim : Nat}
    (hpw : l.Pairwise fun a b => a.1 ≠ b.1) (hm : (k, book) ∈ l)
    (hle : l.countP (fun p => decide (p.2.status = BookStatus.reading)) ≤ lim)
    (hcase : v.status = BookStatus.reading →
      book.status = BookStatus.reading ∨
        l.countP (fun p => decide (p.2.status = BookStatus.reading)) < lim) :
    (setItem l k v).countP (fun p => decide (p.2.status = BookStatus.reading)) ≤ lim := by
  have hcnt := countP_setItem (v := v) hpw hm
    (fun p => decide (p.2.status = BookStatus.reading))
  by_cases hv : v.status = BookStatus.reading
  · by_cases hgs : book.status = BookStatus.reading
    · simp [hv, hgs] at hcnt
      omega
    · simp [hv, hgs] at hcnt
      rcases hcase hv with hg | hlt
      · exact absurd hg hgs
      · omega
  · simp [hv] at hcnt
    by_cases hgs : book.status = BookStatus.reading <;> simp [hgs] at hcnt <;> omega

/-- C3 counterexample: `update_limit` never re-checks the count — lowering the
limit to 1 with two active games stored succeeds and leaves
`count(active) = 2 > 1 = limit`. -/
theorem C3_counterexample :
    activeLen gsTwoActive = 2 ∧
    updateGameLimit 1 gsTwoActive = ⟨gsTwoActive.games, 3, 1⟩ ∧
    ¬ activeLen (updateGameLimit 1 gsTwoActive) ≤ (updateGameLimit 1 gsTwoActive).limit := by
  decide

/-- C3 (amended): every successful add and update preserves
`count(limited status) ≤ limit` in both stores; set-limit, however, does not
re-check the count and can break the invariant (see the counterexample). -/
theorem C3_count_le_limit_amended :
    (∀ now gd (s s' : GameStore) g, activeLen s ≤ s.limit →
      addGame now gd s = (s', Except.ok g) → activeLen s' ≤ s'.limit) ∧
    (∀ now gid u (s s' : GameStore) g, WFg s → activeLen s ≤ s.limit →
      updateGame now gid u s = (s', Except.ok g) → activeLen s' ≤ s'.limit) ∧
    (∀ now bd (s s' : BookStore) b, readingLen s ≤ s.limit →
      addBook now bd s = (s', Except.ok b) → readingLen s' ≤ s'.limit) ∧
    (∀ now bid u (s s' : BookStore) b, WFb s → readingLen s ≤ s.limit →
      updateBook now bid u s = (s', Except.ok b) → readingLen s' ≤ s'.limit) := by
  refine ⟨?_, ?_, ?_, ?_⟩
  · intro now gd s s' g hle h
    rw [activeLen_countP] at hle
    unfold addGame mkAddGame at h
    split_ifs at h with h1 h2 h3 h4
    · injection h with ha hb; simp at hb
    · injection h with ha hb; simp at hb
    · injection h with ha hb
      subst ha
      rw [activeLen_countP]
      show (s.games ++ [(s.next_id, mkNewGame now gd s)]).countP _ ≤ s.limit
      rw [countP_append_single]
      have h2' : ¬ activeLen s ≥ s.limit := h2
      rw [activeLen_countP] at h2'
      simp [mkNewGame, h1]
      omega
    · injection h with ha hb; simp at hb
    · injection h with ha hb
      subst ha
      rw [activeLen_countP]
      show (s.games ++ [(s.next_id, mkNewGame now gd s)]).countP _ ≤ s.limit
      rw [countP_append_single]
      simp [mkNewGame, h1]
      omega
    · injection h with ha hb; simp at hb
  · intro now gid u s s' g hwf hle hup
    unfold updateGame at hup
    cases hfind : findItem s.games gid with
    | none => rw [hfind] at hup; injection hup with ha hb; simp at hb
    | some g0 =>
      rw [hfind] at hup
      have hmem := findItem_mem hfind
      cases hn : u.name with
      | none =>
        simp only [hn] at hup
        cases hs : u.status with
        | none =>
          simp only [hs, finishGameUpdate_eq] at hup
          injection hup with ha hb
          subst ha
          rw [activeLen_countP]
          show (setItem s.games gid (applyGameFields u g0)).countP _ ≤ s.limit
          rw [countP_setItem_same hwf.1 hmem _
            (by simp [(applyGameFields_proj u g0).2.1])]
          rw [activeLen_countP] at hle
          exact hle
        | some ns =>
          simp only [hs] at hup
          exact gameStatusChange_count hwf.1 hmem hle hup
      | some n =>
        simp only [hn] at hup
        split_ifs at hup with hdup
        · injection hup with ha hb; simp at hb
        · have hmem1 : (gid, { g0 with name := pyStrip n }) ∈
              setItem s.games gid { g0 with name := pyStrip n } :=
            mem_setItem_self _ hmem
          have hpw1 := pairwise_keys_setItem
            (k := gid) (v := { g0 with name := pyStrip n }) hwf.1
          have hle1 : activeLen ⟨setItem s.games gid { g0 with name := pyStrip n },
              s.next_id, s.limit⟩ ≤ s.limit := by
            rw [activeLen_countP]
            show (setItem s.games gid _).countP _ ≤ s.limit
            rw [countP_setItem_same hwf.1 hmem _ (by simp)]
            rw [activeLen_countP] at hle
            exact hle
          cases hs : u.status with
          | none =>
            simp only [hs, finishGameUpdate_eq] at hup
            injection hup with ha hb
            subst ha
            rw [activeLen_countP]
            show (setItem (setItem s.games gid { g0 with name := pyStrip n }) gid
              (applyGameFields u { g0 with name := pyStrip n })).countP _ ≤ s.limit
            rw [countP_setItem_same hpw1 hmem1 _
              (by simp [(applyGameFields_proj u _).2.1])]
            rw [activeLen_countP] at hle1
            exact hle1
          | some ns =>
            simp only [hs] at hup
            exact gameStatusChange_count hpw1 hmem1 hle1 hup
  · intro now bd s s' b hle h
    rw [readingLen_countP] at hle
    unfold addBook mkAddBook at h
    split_ifs at h with h1 h2 h3 h4
    · injection h with ha hb; simp at hb
    · injection h with ha hb; simp at hb
    · injection h with ha hb
      subst ha
      rw [readingLen_countP]
      show (s.books ++ [(s.next_id, mkNewBook now bd s)]).countP _ ≤ s.limit
      rw [countP_append_single]
      have h2' : ¬ readingLen s ≥ s.limit := h2
      rw [readingLen_countP] at h2'
      simp [mkNewBook, h1]
      omega
    · injection h with ha hb; simp at hb
    · injection h with ha hb
      subst ha
      rw [readingLen_countP]
      show (s.books ++ [(s.next_id, mkNewBook now bd s)]).countP _ ≤ s.limit
      rw [countP_append_single]
      simp [mkNewBook, h1]
      omega
    · injection h with ha hb; simp at hb
  · intro now bid u s s' b hwf hle hup
    rw [readingLen_countP] at hle
    unfold updateBook at hup
    cases hfind : findItem s.books bid with
    | none => rw [hfind] at hup; injection hup with ha hb; simp at hb
    | some b0 =>
      rw [hfind] at hup
      have hmem := findItem_mem hfind
      have hbid : bid = b0.id := (hwf.2 _ hmem).1
      cases hs : u.status with
      | none =>
        simp only [hs] at hup
        obtain ⟨ha, hb'⟩ := finishBookUpdate_ok hup
        rw [ha, readingLen_countP]
        show (setItem s.books bid (applyBookUpdate b0 u)).countP _ ≤ s.limit
        apply count_le_after_set_book hwf.1 hmem hle
        intro hv
        left
        rw [(applyBookUpdate_proj u b0).2.2.1, hs] at hv
        exact hv
      | some ns =>
        simp only [hs] at hup
        split_ifs at hup with hc hlim hdup
        · injection hup with ha hb; simp at hb
        · injection hup with ha hb; simp at hb
        · obtain ⟨ha, hb'⟩ := finishBookUpdate_ok hup
          rw [ha, readingLen_countP]
          show (setItem (setItem s.books bid (applyBookUpdate b0 u)) bid
            (adjustBookEnded now b0.status (applyBookUpdate b0 u))).countP _ ≤ s.limit
          rw [setItem_setItem]
          apply count_le_after_set_book hwf.1 hmem hle
          intro hv
          refine Or.inr ?_
          have hb1id : (applyBookUpdate b0 u).id = b0.id :=
            (applyBookUpdate_proj u b0).2.2.2.2.2.2.2.1
          rw [bookCountExcl_setItem hwf hmem hb1id hbid] at hlim
          rw [bookCountExcl_eq_readingLen hwf hfind hc.2] at hlim
          rw [readingLen_countP] at hlim
          omega
        · obtain ⟨ha, hb'⟩ := finishBookUpdate_ok hup
          rw [ha, readingLen_countP]
          show (setItem (setItem s.books bid (applyBookUpdate b0 u)) bid
            (adjustBookEnded now b0.status (applyBookUpdate b0 u))).countP _ ≤ s.limit
          rw [setItem_setItem]
          apply count_le_after_set_book hwf.1 hmem hle
          intro hv
          left
          rw [(adjustBookEnded_proj now b0.status _).2.2.1,
            (applyBookUpdate_proj u b0).2.2.1, hs] at hv
          by_contra hb0r
          exact hc ⟨hv, hb0r⟩

/-- C3 witness: concrete successful adds and updates in both stores keep the
limited-status count within the limit. -/
theorem C3_witness :
    activeLen (addGame 3 { name := "B", status := GameStatus.active } gsFoo).1 ≤
      (addGame 3 { name := "B", status := GameStatus.active } gsFoo).1.limit ∧
    activeLen (updateGame 4 2 { status := some GameStatus.active } gsTwoActive).1 ≤
      (updateGame 4 2 { status := some GameStatus.active } gsTwoActive).1.limit ∧
    readingLen (addBook 3 { title := "B" } bsFoo).1 ≤
      (addBook 3 { title := "B" } bsFoo).1.limit ∧
    readingLen (updateBook 4 1 { notes := some "n" } bsFoo).1 ≤
      (updateBook 4 1 { notes := some "n" } bsFoo).1.limit := by
  obtain ⟨hga, hgu, hba, hbu⟩ := C3_count_le_limit_amended
  refine ⟨?_, ?_, ?_, ?_⟩
  · exact hga 3 _ gsFoo _ _ (by decide)
      (by decide :
        addGame 3 { name := "B", status := GameStatus.active } gsFoo =
          ((addGame 3 { name := "B", status := GameStatus.active } gsFoo).1,
            Except.ok (mkNewGame 3 { name := "B", status := GameStatus.active } gsFoo)))
  · exact hgu 4 2 _ gsTwoActive _ _ (by decide) (by decide)
      (by decide :
        updateGame 4 2 { status := some GameStatus.active } gsTwoActive =
          ((updateGame 4 2 { status := some GameStatus.active } gsTwoActive).1,
            Except.ok (gameUpdateApply 4 { status := some GameStatus.active }
              (mkG 2 "B" GameStatus.active))))
  · exact hba 3 _ bsFoo _ _ (by decide)
      (by decide :
        addBook 3 { title := "B" } bsFoo =
          ((addBook 3 { title := "B" } bsFoo).1,
            Except.ok (mkNewBook 3 { title := "B" } bsFoo)))
  · exact hbu 4 1 _ bsFoo _ _ (by decide) (by decide)
      (by decide :
        updateBook 4 1 { notes := some "n" } bsFoo =
          ((updateBook 4 1 { notes := some "n" } bsFoo).1,
            Except.ok (bookUpdateApply 4 { notes := some "n" }
              (mkB 1 "Foo" BookStatus.reading))))

/-! ### Claim C4 -/

/-- C4 counterexample: a game created PAUSED and then successfully updated to
FINISHED is stored with a terminal status and `ended_at = none`, violating the
claimed iff invariant. -/
theorem C4_counterexample :
    (updateGame 5 1 { status := some GameStatus.finished } gsPaused).1 =
      ⟨[(1, mkG 1 "Alpha" GameStatus.finished)], 2, 5⟩ ∧
    gameTerminal (mkG 1 "Alpha" GameStatus.finished).status ∧
    (mkG 1 "Alpha" GameStatus.finished).ended_at = none := by decide

/-- C4 (amended): the book store preserves the full invariant
«`ended_at` non-null ↔ status terminal» across add/update/delete; the game
store preserves only the forward direction «`ended_at` non-null → terminal»
(the converse fails, see the counterexample); and in both stores an item
created directly in a terminal status gets `ended_at = now` at creation while
any other status starts with `ended_at = null`. -/
theorem C4_ended_invariant_amended :
    (∀ now bd (s s' : BookStore) b, BEndedIff s →
      addBook now bd s = (s', Except.ok b) → BEndedIff s') ∧
    (∀ now bid u (s s' : BookStore) b, BEndedIff s →
      updateBook now bid u s = (s', Except.ok b) → BEndedIff s') ∧
    (∀ bid (s s' : BookStore) r, BEndedIff s →
      deleteBook bid s = (s', Except.ok r) → BEndedIff s') ∧
    (∀ now gd (s s' : GameStore) g, GEndedSub s →
      addGame now gd s = (s', Except.ok g) → GEndedSub s') ∧
    (∀ now gid u (s s' : GameStore) g, GEndedSub s →
      updateGame now gid u s = (s', Except.ok g) → GEndedSub s') ∧
    (∀ gid (s s' : GameStore) r, GEndedSub s →
      deleteGame gid s = (s', Except.ok r) → GEndedSub s') ∧
    (∀ now gd (s s' : GameStore) g, addGame now gd s = (s', Except.ok g) →
      (gameTerminal gd.status → g.ended_at = some now) ∧
      (¬ gameTerminal gd.status → g.ended_at = none)) ∧
    (∀ now bd (s s' : BookStore) b, addBook now bd s = (s', Except.ok b) →
      (bookTerminal bd.status → b.ended_at = some now) ∧
      (¬ bookTerminal bd.status → b.ended_at = none)) := by
  refine ⟨?_, ?_, ?_, ?_, ?_, ?_, ?_, ?_⟩
  · intro now bd s s' b hinv h
    obtain ⟨hbval, hbooks, -, -⟩ := addBook_ok h
    intro p hp
    rw [hbooks] at hp
    rcases List.mem_append.1 hp with hmem | hmem
    · exact hinv p hmem
    · have hpe : p = (s.next_id, b) := List.mem_singleton.1 hmem
      subst hpe
      rw [hbval]
      by_cases ht : bd.status = BookStatus.finished ∨ bd.status = BookStatus.dropped <;>
        simp [mkNewBook, bookTerminal, ht]
  · intro now bid u s s' b hinv h
    obtain ⟨b0, hfind, hbval, hbooks, -, -⟩ := updateBook_ok h
    have hinv0 := hinv (bid, b0) (findItem_mem hfind)
    intro p hp
    rw [hbooks] at hp
    rcases mem_setItem hp with hmem | hpe
    · exact hinv p hmem
    · subst hpe
      rw [hbval]
      show (bookUpdateApply now u b0).ended_at ≠ none ↔
        bookTerminal (bookUpdateApply now u b0).status
      rw [bookUpdateApply_ended, bookUpdateApply_status]
      cases hs : u.status with
      | none => exact hinv0
      | some ns =>
        show (if bookTerminal ns ∧ ¬ bookTerminal b0.status then some now
          else if bookTerminal b0.status ∧ ¬ bookTerminal ns then none
          else b0.ended_at) ≠ none ↔ bookTerminal ns
        by_cases hTns : bookTerminal ns <;> by_cases hTb0 : bookTerminal b0.status
        · rw [if_neg (fun hc => hc.2 hTb0), if_neg (fun hc => hc.2 hTns)]
          exact ⟨fun _ => hTns, fun _ => hinv0.mpr hTb0⟩
        · rw [if_pos ⟨hTns, hTb0⟩]
          exact ⟨fun _ => hTns, fun _ => by simp⟩
        · rw [if_neg (fun hc => hTns hc.1), if_pos ⟨hTb0, hTns⟩]
          exact ⟨fun hne => absurd rfl hne, fun ht => absurd ht hTns⟩
        · rw [if_neg (fun hc => hTns hc.1), if_neg (fun hc => hTb0 hc.1)]
          have hz : b0.ended_at = none :=
            not_not.mp (fun hne => hTb0 (hinv0.mp hne))
          exact ⟨fun hne => absurd hz hne, fun ht => absurd ht hTns⟩
  · intro bid s s' r hinv h
    unfold deleteBook at h
    split_ifs at h with hex
    · injection h with ha hb
      subst ha
      intro p hp
      exact hinv p (List.mem_of_mem_filter hp)
    · injection h with ha hb; simp at hb
  · intro now gd s s' g hinv h
    obtain ⟨hgval, hgames, -, -⟩ := addGame_ok h
    intro p hp
    rw [hgames] at hp
    rcases List.mem_append.1 hp with hmem | hmem
    · exact hinv p hmem
    · have hpe : p = (s.next_id, g) := List.mem_singleton.1 hmem
      subst hpe
      rw [hgval]
      intro hne
      by_cases ht : gd.status = GameStatus.finished ∨ gd.status = GameStatus.dropped
      · show gameTerminal (mkNewGame now gd s).status
        simpa [mkNewGame, gameTerminal] using ht
      · exact absurd (by simp [mkNewGame, ht] :
          (mkNewGame now gd s).ended_at = none) hne
  · intro now gid u s s' g hinv h
    obtain ⟨g0, hfind, hgval, hgames, -, -⟩ := updateGame_ok h
    have hinv0 := hinv (gid, g0) (findItem_mem hfind)
    intro p hp
    rw [hgames] at hp
    rcases mem_setItem hp with hmem | hpe
    · exact hinv p hmem
    · subst hpe
      rw [hgval]
      show (gameUpdateApply now u g0).ended_at ≠ none →
        gameTerminal (gameUpdateApply now u g0).status
      rw [gameUpdateApply_ended, gameUpdateApply_status]
      cases hs : u.status with
      | none => exact hinv0
      | some ns =>
        show (if ns = GameStatus.active ∨ ns = GameStatus.paused ∨
            ns = GameStatus.casual ∨ ns = GameStatus.planned then none
          else if g0.status = GameStatus.active then some now
          else g0.ended_at) ≠ none → gameTerminal ns
        intro hne
        by_cases h4 : ns = GameStatus.active ∨ ns = GameStatus.paused ∨
            ns = GameStatus.casual ∨ ns = GameStatus.planned
        · rw [if_pos h4] at hne
          exact absurd rfl hne
        · cases ns <;> simp_all [gameTerminal]
  · intro gid s s' r hinv h
    unfold deleteGame at h
    split_ifs at h with hex
    · injection h with ha hb
      subst ha
      intro p hp
      exact hinv p (List.mem_of_mem_filter hp)
    · injection h with ha hb; simp at hb
  · intro now gd s s' g h
    obtain ⟨hgval, -, -, -⟩ := addGame_ok h
    constructor
    · intro ht
      rw [hgval]
      show (if gd.status = GameStatus.finished ∨ gd.status = GameStatus.dropped
        then some now else none) = some now
      exact if_pos ht
    · intro ht
      rw [hgval]
      show (if gd.status = GameStatus.finished ∨ gd.status = GameStatus.dropped
        then some now else none) = none
      exact if_neg ht
  · intro now bd s s' b h
    obtain ⟨hbval, -, -, -⟩ := addBook_ok h
    constructor
    · intro ht
      rw [hbval]
      show (if bd.status = BookStatus.finished ∨ bd.status = BookStatus.dropped
        then some now else none) = some now
      exact if_pos ht
    · intro ht
      rw [hbval]
      show (if bd.status = BookStatus.finished ∨ bd.status = BookStatus.dropped
        then some now else none) = none
      exact if_neg ht

/-- C4 witness: concrete successful operations in both stores keep the
`ended_at` invariants, and creating items directly in FINISHED stamps
`ended_at` at creation. -/
theorem C4_witness :
    BEndedIff (addBook 5 { title := "N", status := BookStatus.finished } bsFoo).1 ∧
    BEndedIff (updateBook 6 1 { status := some BookStatus.finished } bsFoo).1 ∧
    BEndedIff (deleteBook 1 bsFoo).1 ∧
    GEndedSub (addGame 5 { name := "N", status := GameStatus.finished } gsFoo).1 ∧
    GEndedSub (updateGame 6 1 { status := some GameStatus.paused } gsFoo).1 ∧
    GEndedSub (deleteGame 1 gsFoo).1 ∧
    (mkNewGame 5 { name := "N", status := GameStatus.finished } gsFoo).ended_at = some 5 ∧
    (mkNewBook 5 { title := "N", status := BookStatus.finished } bsFoo).ended_at = some 5 := by
  obtain ⟨h1, h2, h3, h4, h5, h6, h7, h8⟩ := C4_ended_invariant_amended
  refine ⟨?_, ?_, ?_, ?_, ?_, ?_, ?_, ?_⟩
  · exact h1 5 _ bsFoo _ _ (by decide)
      (by decide :
        addBook 5 { title := "N", status := BookStatus.finished } bsFoo =
          ((addBook 5 { title := "N", status := BookStatus.finished } bsFoo).1,
            Except.ok (mkNewBook 5 { title := "N", status := BookStatus.finished } bsFoo)))
  · exact h2 6 1 _ bsFoo _ _ (by decide)
      (by decide :
        updateBook 6 1 { status := some BookStatus.finished } bsFoo =
          ((updateBook 6 1 { status := some BookStatus.finished } bsFoo).1,
            Except.ok (bookUpdateApply 6 { status := some BookStatus.finished }
              (mkB 1 "Foo" BookStatus.reading))))
  · exact h3 1 bsFoo _ _ (by decide)
      (by decide :
        deleteBook 1 bsFoo = ((deleteBook 1 bsFoo).1, Except.ok true))
  · exact h4 5 _ gsFoo _ _ (by decide)
      (by decide :
        addGame 5 { name := "N", status := GameStatus.finished } gsFoo =
          ((addGame 5 { name := "N", status := GameStatus.finished } gsFoo).1,
            Except.ok (mkNewGame 5 { name := "N", status := GameStatus.finished } gsFoo)))
  · exact h5 6 1 _ gsFoo _ _ (by decide)
      (by decide :
        updateGame 6 1 { status := some GameStatus.paused } gsFoo =
          ((updateGame 6 1 { status := some GameStatus.paused } gsFoo).1,
            Except.ok (gameUpdateApply 6 { status := some GameStatus.paused }
              (mkG 1 "Foo" GameStatus.active))))
  · exact h6 1 gsFoo _ _ (by decide)
      (by decide :
        deleteGame 1 gsFoo = ((deleteGame 1 gsFoo).1, Except.ok true))
  · exact (h7 5 _ gsFoo _ _
      (by decide :
        addGame 5 { name := "N", status := GameStatus.finished } gsFoo =
          ((addGame 5 { name := "N", status := GameStatus.finished } gsFoo).1,
            Except.ok (mkNewGame 5 { name := "N", status := GameStatus.finished } gsFoo)))).1
      (by decide)
  · exact (h8 5 _ bsFoo _ _
      (by decide :
        addBook 5 { title := "N", status := BookStatus.finished } bsFoo =
          ((addBook 5 { title := "N", status := BookStatus.finished } bsFoo).1,
            Except.ok (mkNewBook 5 { title := "N", status := BookStatus.finished } bsFoo)))).1
      (by decide)

end Gametracker
